import Mathlib

/-!
Verification development for the ChipIn payment confirmation and
reconciliation subsystem.  The definitions below are a shallow embedding of
the TypeScript sources: provider status mapping and signature verification
(`src/lib/payments/snapscan.ts`, `src/lib/payments/ozow.ts`), the store
operations (`src/lib/db/queries.ts`), the three webhook route handlers
(`src/app/api/webhooks/{payfast,ozow,snapscan}/route.ts`), the reconciliation
route (`src/app/api/internal/payments/reconcile/route.ts`) and the API rate
limiter (`src/lib/api/rate-limit.ts`).  External collaborators (the KV store,
the svix verifier, the HMAC primitive, JSON decoding) are passed in as
explicit parameters, mirroring their interface-only role.
-/

/-- Contribution payment status, `payment_status` enum of the schema. -/
inductive PaymentStatus
  | pending
  | processing
  | completed
  | failed
  | refunded
deriving DecidableEq

/-- Dream board status, `dream_board_status` enum of the schema. -/
inductive BoardStatus
  | draft
  | active
  | funded
  | closed
  | paidOut
  | expired
  | cancelled
deriving DecidableEq

/-- Payment provider, `payment_provider` enum of the schema. -/
inductive Provider
  | payfast
  | ozow
  | snapscan
deriving DecidableEq

/-- Case-insensitive-free character list comparison helper: does `pat` occur
at the head of `cs`?  (Equality is plain `==`; callers lowercase first, as the
source does via `toLowerCase()`.) -/
def leadsWith : List Char → List Char → Bool
  | [], _ => true
  | _ :: _, [] => false
  | p :: ps, c :: cs => p == c && leadsWith ps cs

/-- Substring containment on character lists, the model of JavaScript
`String.prototype.includes` for a non-empty pattern. -/
def hasSub (pat : List Char) : List Char → Bool
  | [] => leadsWith pat []
  | c :: cs => leadsWith pat (c :: cs) || hasSub pat cs

/-- Model of `strIncludes s pat` models `s.includes(pat)` in JavaScript. -/
def strIncludes (s pat : String) : Bool :=
  hasSub pat.data s.data

/-- ASCII lowering of a string, the model of `String.prototype.toLowerCase`
on the ASCII vendor vocabulary the adapters match against. -/
def lowerStr (s : String) : String :=
  ⟨s.data.map Char.toLower⟩

/-- Success vocabulary of `mapSnapScanStatus` (snapscan.ts line 117). -/
def snapSuccessTokens : List String :=
  ["paid", "complete", "completed", "success", "successful"]

/-- Success vocabulary of `mapOzowStatus` (ozow.ts line 189). -/
def ozowSuccessTokens : List String :=
  ["paid", "completed", "success", "successful"]

/-- Failure vocabulary shared by both mappers (snapscan.ts line 124,
ozow.ts line 193). -/
def failureTokens : List String :=
  ["failed", "cancelled", "canceled", "expired", "rejected"]

/-- Model of `mapSnapScanStatus` (snapscan.ts lines 111-131), on the raw `status`
field of the payload.  `none` models an absent field; the JavaScript
falsiness test `if (!rawStatus)` also sends the empty string to
`processing`. -/
def mapSnapScanStatus (rawStatus : Option String) : PaymentStatus :=
  match rawStatus with
  | none => .processing
  | some raw =>
    if raw == "" then .processing
    else if snapSuccessTokens.any (fun v => strIncludes (lowerStr raw) v) then .completed
    else if failureTokens.any (fun v => strIncludes (lowerStr raw) v) then .failed
    else .processing

/-- Model of `mapOzowStatus` (ozow.ts lines 179-200), on the resolved raw status
(the source first resolves `data.status ?? data.transactionStatus ??
payload.status`; the argument here is that resolution's result). -/
def mapOzowStatus (rawStatus : Option String) : PaymentStatus :=
  match rawStatus with
  | none => .processing
  | some raw =>
    if raw == "" then .processing
    else if ozowSuccessTokens.any (fun v => strIncludes (lowerStr raw) v) then .completed
    else if failureTokens.any (fun v => strIncludes (lowerStr raw) v) then .failed
    else .processing

example : mapSnapScanStatus (some "COMPLETED") = .completed := by decide
example : mapSnapScanStatus (some "unpaid") = .completed := by decide
example : mapOzowStatus (some "unpaid") = .completed := by decide
example : mapSnapScanStatus (some "weird") = .processing := by decide
example : mapOzowStatus (some "Cancelled") = .failed := by decide
example : mapOzowStatus none = .processing := by decide

/-- A persisted contribution row, with the columns the payment subsystem
reads and writes (`contributions` table). -/
structure Contribution where
  id : Nat
  dreamBoardId : Nat
  amountCents : Int
  feeCents : Int
  netCents : Int
  paymentProvider : Provider
  paymentRef : String
  paymentStatus : PaymentStatus
  createdAt : Int
  updatedAt : Int
deriving DecidableEq

/-- A persisted dream board row, with the columns
`markDreamBoardFundedIfNeeded` reads and writes. -/
structure DreamBoard where
  id : Nat
  goalCents : Int
  status : BoardStatus
  updatedAt : Int
deriving DecidableEq

/-- The persistent store consumed by the subsystem: contribution and dream
board rows. -/
structure Db where
  contributions : List Contribution
  boards : List DreamBoard
deriving DecidableEq

/-- Model of `getContributionByPaymentRef` (queries.ts lines 254-275): select the
first contribution matching `(paymentProvider, paymentRef)`. -/
def getContributionByPaymentRef (db : Db) (provider : Provider) (ref : String) :
    Option Contribution :=
  (db.contributions.filter
    (fun c => c.paymentProvider == provider && c.paymentRef == ref)).head?

/-- Model of `updateContributionStatus` (queries.ts lines 277-285): set the payment
status and bump `updatedAt` on the row with the given id. -/
def updateContributionStatus (db : Db) (now : Int) (id : Nat)
    (status : PaymentStatus) : Db :=
  { db with
    contributions := db.contributions.map
      (fun c => if c.id == id then { c with paymentStatus := status, updatedAt := now } else c) }

/-- The `COALESCE(SUM(net_cents), 0)` over completed contributions of a
board, as computed by the join in `markDreamBoardFundedIfNeeded`
(queries.ts lines 288-304). -/
def raisedCents (db : Db) (boardId : Nat) : Int :=
  ((db.contributions.filter
      (fun c => c.dreamBoardId == boardId && c.paymentStatus == PaymentStatus.completed)).map
    (fun c => c.netCents)).sum

/-- Select a board by id (`limit 1`). -/
def getBoard (db : Db) (boardId : Nat) : Option DreamBoard :=
  (db.boards.filter (fun b => b.id == boardId)).head?

/-- Model of `markDreamBoardFundedIfNeeded` (queries.ts lines 287-314): recompute the
completed net sum; if the board exists, is `active` and the sum has reached
the goal, flip its status to `funded`; otherwise change nothing. -/
def markDreamBoardFundedIfNeeded (db : Db) (now : Int) (boardId : Nat) : Db :=
  match getBoard db boardId with
  | none => db
  | some board =>
    if board.status ≠ BoardStatus.active then db
    else if raisedCents db boardId < board.goalCents then db
    else
      { db with
        boards := db.boards.map
          (fun b => if b.id == boardId then { b with status := .funded, updatedAt := now } else b) }

/-- The status of the `i`-th board row of a store, used to state
status-preservation facts positionally. -/
def boardStatusAt (db : Db) (i : Nat) : Option BoardStatus :=
  db.boards[i]?.map DreamBoard.status

/-- Body of a `NextResponse.json` produced by the webhook routes: the
success acknowledgement, a plain error object, or an error object carrying
`retryAfterSeconds` (the rate-limited rejection). -/
inductive RespBody
  | received
  | err (code : String)
  | errRetry (code : String) (retryAfterSeconds : Option Int)
deriving DecidableEq

/-- The error code of a response body, when it is a rejection. -/
def bodyErrorCode : RespBody → Option String
  | .received => none
  | .err code => some code
  | .errRetry code _ => some code

/-- An HTTP response: status code plus JSON body. -/
structure HttpResponse where
  status : Nat
  body : RespBody
deriving DecidableEq

/-- Whether an HTTP status code is a success (2xx) code. -/
def is2xx (n : Nat) : Bool :=
  decide (200 ≤ n) && decide (n < 300)

/-- A persistence-layer effect performed by a handler, recorded in the order
issued.  `invalidateCache` is the ozow route's dream-board cache
invalidation (an external cache, not a row write). -/
inductive DbWrite
  | updateStatus (id : Nat) (status : PaymentStatus)
  | markFunded (boardId : Nat)
  | invalidateCache (boardId : Nat)
deriving DecidableEq

/-- Outcome of one webhook handler invocation: the response, the store left
behind, and the persistence effects issued. -/
structure HandlerResult where
  response : HttpResponse
  db : Db
  writes : List DbWrite
deriving DecidableEq

/-- Outcome of the shared `enforceRateLimit` call guarding the ozow and
snapscan routes (`lib/auth/rate-limit`, an external KV-backed collaborator
of these routes). -/
structure RateLimitOutcome where
  allowed : Bool
  retryAfterSeconds : Option Int
deriving DecidableEq

/-- JavaScript `\s` on the ASCII range, for the snapscan authorization
header pattern. -/
def isJsWs (c : Char) : Bool :=
  c == ' ' || c == '\t' || c == '\n' || c == '\r' || c == '\x0b' || c == '\x0c'

/-- Case-insensitive literal match at the head of `cs`; on success returns
the remaining characters. -/
def matchLit : List Char → List Char → Option (List Char)
  | [], cs => some cs
  | _ :: _, [] => none
  | p :: ps, c :: cs => if p.toLower == c.toLower then matchLit ps cs else none

/-- Try to match `snapscan\s+signature=([^,\s]+)` (case-insensitively) at
the head of `cs`, returning the captured group. -/
def matchSigAt (cs : List Char) : Option (List Char) :=
  match matchLit "snapscan".data cs with
  | none => none
  | some r1 =>
    let ws := r1.takeWhile isJsWs
    if ws.isEmpty then none
    else
      match matchLit "signature=".data (r1.dropWhile isJsWs) with
      | none => none
      | some r2 =>
        let cap := r2.takeWhile (fun c => !(c == ',' || isJsWs c))
        if cap.isEmpty then none else some cap

/-- Scan for the first match of the pattern anywhere in the list. -/
def findSig : List Char → Option (List Char)
  | [] => none
  | c :: cs =>
    match matchSigAt (c :: cs) with
    | some cap => some cap
    | none => findSig cs

/-- Model of `parseSnapScanSignature` (snapscan.ts lines 53-57): extract the
signature from the authorization header via the regex
`/snapscan\s+signature=([^,\s]+)/i`; a missing header yields null. -/
def parseSnapScanSignature (authorization : Option String) : Option String :=
  match authorization with
  | none => none
  | some auth => (findSig auth.data).map (fun cs => ⟨cs⟩)

/-- Model of `verifySnapScanSignature` (snapscan.ts lines 59-67).  The HMAC-SHA256
hex digest is the `crypto` collaborator, passed in as `hmacSha256Hex key
body`.  An absent signature or an unconfigured (empty) webhook auth key
fails closed; otherwise the header signature must equal the expected digest
(the source compares with `timingSafeEqual` after a length check). -/
def verifySnapScanSignature (hmacSha256Hex : String → String → String)
    (webhookAuthKey : String) (rawBody : String) (authorization : Option String) : Bool :=
  match parseSnapScanSignature authorization with
  | none => false
  | some signature =>
    if webhookAuthKey == "" then false
    else
      let expected := hmacSha256Hex webhookAuthKey rawBody
      if signature.length ≠ expected.length then false
      else signature == expected

example : parseSnapScanSignature (some "SnapScan signature=abc123,extra") = some "abc123" := by decide
example : parseSnapScanSignature (some "nope") = none := by decide
example :
    verifySnapScanSignature (fun _ body => body) "k" "sig" (some "snapscan signature=sig") = true := by
  decide

/-- An ozow webhook payload, as the route consumes it.  The source payload
is an untyped JSON record; the fields here are the results of the route's
three field extractions: `merchantReference` is the string candidate chain
of `extractOzowReference`, `amountCents` is the `parseOzowAmountCents`
result, and `rawStatus` is the status candidate chain fed to
`mapOzowStatus`. -/
structure OzowPayload where
  merchantReference : Option String
  amountCents : Option Int
  rawStatus : Option String
deriving DecidableEq

/-- Model of `extractOzowReference` (ozow.ts lines 148-157) on the embedded payload. -/
def extractOzowReference (p : OzowPayload) : Option String :=
  p.merchantReference

/-- Model of `parseOzowAmountCents` (ozow.ts lines 159-177) on the embedded payload. -/
def parseOzowAmountCents (p : OzowPayload) : Option Int :=
  p.amountCents

/-- The svix header triplet, as the ozow route assembles it with `?? ''`
defaults (ozow route lines 134-138). -/
structure SvixHeaders where
  svixId : String
  svixTimestamp : String
  svixSignature : String
deriving DecidableEq

/-- Model of `verifyOzowWebhook` (ozow.ts lines 128-146).  `svixVerify secret body
headers` is the svix `Webhook.verify` collaborator, returning the parsed
payload or `none` where the library would throw.  An unconfigured webhook
secret (absent or empty, the JavaScript `!webhookSecret`) fails closed. -/
def verifyOzowWebhook (svixVerify : String → String → SvixHeaders → Option OzowPayload)
    (webhookSecret : Option String) (rawBody : String) (headers : SvixHeaders) :
    Option OzowPayload :=
  match webhookSecret with
  | none => none
  | some secret =>
    if secret == "" then none
    else svixVerify secret rawBody headers

/-- The inbound request data the ozow route reads. -/
structure OzowRequest where
  rawBody : String
  svixId : Option String
  svixTimestamp : Option String
  svixSignature : Option String
deriving DecidableEq

/-- The `headers.get(...) ?? ''` assembly of the svix triplet. -/
def svixHeadersOf (req : OzowRequest) : SvixHeaders :=
  ⟨req.svixId.getD "", req.svixTimestamp.getD "", req.svixSignature.getD ""⟩

/-- The ozow webhook `POST` handler
(`src/app/api/webhooks/ozow/route.ts` lines 21-86): rate limit, svix
verification, reference extraction, contribution lookup, completed
short-circuit, amount gate, status mapping, equal-status short-circuit,
persistence and funding check. -/
def ozowPOST (svixVerify : String → String → SvixHeaders → Option OzowPayload)
    (webhookSecret : Option String) (rl : RateLimitOutcome) (req : OzowRequest)
    (db : Db) (now : Int) : HandlerResult :=
  if !rl.allowed then
    ⟨⟨429, .errRetry "rate_limited" rl.retryAfterSeconds⟩, db, []⟩
  else
    match verifyOzowWebhook svixVerify webhookSecret req.rawBody (svixHeadersOf req) with
    | none => ⟨⟨400, .err "invalid_signature"⟩, db, []⟩
    | some payload =>
      match extractOzowReference payload with
      | none => ⟨⟨400, .err "missing_reference"⟩, db, []⟩
      | some paymentRef =>
        match getContributionByPaymentRef db .ozow paymentRef with
        | none => ⟨⟨404, .err "not_found"⟩, db, []⟩
        | some contribution =>
          if contribution.paymentStatus = .completed then
            ⟨⟨200, .received⟩, db, []⟩
          else
            match parseOzowAmountCents payload with
            | none => ⟨⟨400, .err "amount_missing"⟩, db, []⟩
            | some amountCents =>
              if amountCents ≠ contribution.amountCents + contribution.feeCents then
                ⟨⟨400, .err "amount_mismatch"⟩, db, []⟩
              else if contribution.paymentStatus = mapOzowStatus payload.rawStatus then
                ⟨⟨200, .received⟩, db, []⟩
              else if mapOzowStatus payload.rawStatus = .completed then
                ⟨⟨200, .received⟩,
                  markDreamBoardFundedIfNeeded
                    (updateContributionStatus db now contribution.id
                      (mapOzowStatus payload.rawStatus))
                    now contribution.dreamBoardId,
                  [.updateStatus contribution.id (mapOzowStatus payload.rawStatus),
                   .invalidateCache contribution.dreamBoardId,
                   .markFunded contribution.dreamBoardId]⟩
              else
                ⟨⟨200, .received⟩,
                  updateContributionStatus db now contribution.id
                    (mapOzowStatus payload.rawStatus),
                  [.updateStatus contribution.id (mapOzowStatus payload.rawStatus),
                   .invalidateCache contribution.dreamBoardId]⟩

/-- A snapscan webhook payload, as the route consumes it: field-extraction
results of the untyped JSON record.  `reference` is the
`extractSnapScanReference` candidate chain, `amountCents` the
`parseSnapScanAmountCents` result, `rawStatus` the `status` field, and
`timestampValue` the `extractTimestampValue` candidate chain. -/
structure SnapPayload where
  reference : Option String
  amountCents : Option Int
  rawStatus : Option String
  timestampValue : Option String
deriving DecidableEq

/-- Model of `extractSnapScanReference` (snapscan.ts lines 82-90) on the embedded
payload. -/
def extractSnapScanReference (p : SnapPayload) : Option String :=
  p.reference

/-- Model of `parseSnapScanAmountCents` (snapscan.ts lines 92-109) on the embedded
payload. -/
def parseSnapScanAmountCents (p : SnapPayload) : Option Int :=
  p.amountCents

/-- The snapscan route's timestamp freshness step (snapscan route lines
50-72): when a timestamp value is present (JavaScript-truthy, so non-empty)
and `validateWebhookTimestamp` rejects it, the request is rejected; an
absent value only logs a warning.  `validateTs` is the
`lib/payments/webhook-utils` collaborator's `ok` verdict. -/
def snapTimestampRejected (validateTs : String → Bool) (p : SnapPayload) : Bool :=
  match p.timestampValue with
  | none => false
  | some t => if t == "" then false else !validateTs t

/-- The inbound request data the snapscan route reads. -/
structure SnapscanRequest where
  rawBody : String
  authorization : Option String
deriving DecidableEq

/-- The snapscan webhook `POST` handler
(`src/app/api/webhooks/snapscan/route.ts` lines 22-111): rate limit, HMAC
signature verification, payload decoding (`parsePayload`, the
`parseSnapScanPayload` URL-encoded JSON decoding of the raw body),
timestamp freshness, reference extraction, lookup, completed
short-circuit, amount gate, status mapping, persistence and funding
check. -/
def snapscanPOST (hmacSha256Hex : String → String → String) (webhookAuthKey : String)
    (parsePayload : String → Option SnapPayload) (validateTs : String → Bool)
    (rl : RateLimitOutcome) (req : SnapscanRequest) (db : Db) (now : Int) : HandlerResult :=
  if !rl.allowed then
    ⟨⟨429, .errRetry "rate_limited" rl.retryAfterSeconds⟩, db, []⟩
  else if !verifySnapScanSignature hmacSha256Hex webhookAuthKey req.rawBody req.authorization then
    ⟨⟨400, .err "invalid_signature"⟩, db, []⟩
  else
    match parsePayload req.rawBody with
    | none => ⟨⟨400, .err "invalid_payload"⟩, db, []⟩
    | some payload =>
      if snapTimestampRejected validateTs payload then
        ⟨⟨400, .err "invalid_timestamp"⟩, db, []⟩
      else
        match extractSnapScanReference payload with
        | none => ⟨⟨400, .err "missing_reference"⟩, db, []⟩
        | some paymentRef =>
          match getContributionByPaymentRef db .snapscan paymentRef with
          | none => ⟨⟨404, .err "not_found"⟩, db, []⟩
          | some contribution =>
            if contribution.paymentStatus = .completed then
              ⟨⟨200, .received⟩, db, []⟩
            else
              match parseSnapScanAmountCents payload with
              | none => ⟨⟨400, .err "amount_missing"⟩, db, []⟩
              | some amountCents =>
                if amountCents ≠ contribution.amountCents + contribution.feeCents then
                  ⟨⟨400, .err "amount_mismatch"⟩, db, []⟩
                else if mapSnapScanStatus payload.rawStatus = .completed then
                  ⟨⟨200, .received⟩,
                    markDreamBoardFundedIfNeeded
                      (updateContributionStatus db now contribution.id
                        (mapSnapScanStatus payload.rawStatus))
                      now contribution.dreamBoardId,
                    [.updateStatus contribution.id (mapSnapScanStatus payload.rawStatus),
                     .markFunded contribution.dreamBoardId]⟩
                else
                  ⟨⟨200, .received⟩,
                    updateContributionStatus db now contribution.id
                      (mapSnapScanStatus payload.rawStatus),
                    [.updateStatus contribution.id (mapSnapScanStatus payload.rawStatus)]⟩

/-- Outcomes of the payfast adapter calls the payfast route makes.  The
adapter module (`lib/payments/payfast`) is a collaborator of the route;
each field is the result of one call on the inbound request:
`signatureOk` is `verifyPayfastSignature(rawBody)`, `sourceOk` is
`validatePayfastSource(ip)`, `itnValid` is `validatePayfastItn(rawBody)`,
`merchantOk` is `validatePayfastMerchant(payload)`, `pfPaymentId` and
`paymentRef` are the `pf_payment_id` and `m_payment_id` payload fields
(`none` for absent), `amountGross` is
`parsePayfastAmountCents(payload['amount_gross'])`, `mappedStatus` is
`mapPayfastStatus(payload['payment_status'])`, and `isProduction` is
`NODE_ENV === 'production'`. -/
structure PayfastOutcomes where
  signatureOk : Bool
  sourceOk : Bool
  itnValid : Bool
  merchantOk : Bool
  pfPaymentId : Option String
  paymentRef : Option String
  amountGross : Option Int
  mappedStatus : PaymentStatus
  isProduction : Bool
deriving DecidableEq

/-- JavaScript falsiness of an optional string field: absent or empty. -/
def jsFalsyStr : Option String → Bool
  | none => true
  | some s => s == ""

/-- The payfast webhook `POST` handler
(`src/app/api/webhooks/payfast/route.ts` lines 23-103): signature, source
(production only), ITN validation, merchant check, `pf_payment_id` and
`m_payment_id` presence, lookup, completed short-circuit, amount gate
(the source's `!amountCents || amountCents !== expectedTotal`, which also
rejects a parsed amount of zero), persistence and funding check. -/
def payfastPOST (pf : PayfastOutcomes) (db : Db) (now : Int) : HandlerResult :=
  if !pf.signatureOk then
    ⟨⟨400, .err "invalid_signature"⟩, db, []⟩
  else if pf.isProduction && !pf.sourceOk then
    ⟨⟨403, .err "invalid_source"⟩, db, []⟩
  else if !pf.itnValid then
    ⟨⟨400, .err "invalid_itn"⟩, db, []⟩
  else if !pf.merchantOk then
    ⟨⟨400, .err "invalid_merchant"⟩, db, []⟩
  else if jsFalsyStr pf.pfPaymentId then
    ⟨⟨400, .err "missing_pf_payment_id"⟩, db, []⟩
  else
    match pf.paymentRef with
    | none => ⟨⟨400, .err "missing_reference"⟩, db, []⟩
    | some paymentRef =>
      if paymentRef == "" then ⟨⟨400, .err "missing_reference"⟩, db, []⟩
      else
        match getContributionByPaymentRef db .payfast paymentRef with
        | none => ⟨⟨404, .err "not_found"⟩, db, []⟩
        | some contribution =>
          if contribution.paymentStatus = .completed then
            ⟨⟨200, .received⟩, db, []⟩
          else
            match pf.amountGross with
            | none => ⟨⟨400, .err "amount_mismatch"⟩, db, []⟩
            | some a =>
              if a == 0 || a != contribution.amountCents + contribution.feeCents then
                ⟨⟨400, .err "amount_mismatch"⟩, db, []⟩
              else if pf.mappedStatus = .completed then
                ⟨⟨200, .received⟩,
                  markDreamBoardFundedIfNeeded
                    (updateContributionStatus db now contribution.id pf.mappedStatus)
                    now contribution.dreamBoardId,
                  [.updateStatus contribution.id pf.mappedStatus,
                   .markFunded contribution.dreamBoardId]⟩
              else
                ⟨⟨200, .received⟩,
                  updateContributionStatus db now contribution.id pf.mappedStatus,
                  [.updateStatus contribution.id pf.mappedStatus]⟩

/-- The three-valued outcome of the reconciliation decision function
(spec §4.3): persist a status, surface a mismatch, or leave the
contribution alone. -/
inductive ReconcileDecision
  | update (status : PaymentStatus)
  | mismatch (expectedTotal : Int) (receivedTotal : Option Int) (status : PaymentStatus)
  | noAction
deriving DecidableEq

/-- Modelled from the spec: `getExpectedTotal` of `lib/payments/reconciliation`
is imported by the reconcile route but the module is not under src/.
Spec §4.2 step 8: `expectedTotal = amountCents + feeCents`. -/
def getExpectedTotal (amountCents feeCents : Int) : Int :=
  amountCents + feeCents

/-- Modelled from the spec: `decideReconciliation` of
`lib/payments/reconciliation` is imported by the reconcile route but the
module is not under src/.  Spec §4.3: completed with the exact expected
amount updates to completed; failed updates to failed regardless of
amount; completed with a null or differing amount is a mismatch; anything
else (processing/unknown) is no action. -/
def decideReconciliation (status : PaymentStatus) (expectedTotal : Int)
    (receivedTotal : Option Int) : ReconcileDecision :=
  if status = .completed then
    match receivedTotal with
    | some received =>
      if received = expectedTotal then .update .completed
      else .mismatch expectedTotal (some received) status
    | none => .mismatch expectedTotal none status
  else if status = .failed then .update .failed
  else .noAction

/-- A recorded reconciliation mismatch (reconcile route lines 33-39). -/
structure ReconciliationMismatch where
  provider : Provider
  paymentRef : String
  expectedTotal : Int
  receivedTotal : Option Int
  status : PaymentStatus
deriving DecidableEq

/-- Counters a reconciliation pass accumulates (reconcile route lines
72-75). -/
structure PassCounters where
  updated : Nat
  failed : Nat
  unresolved : Nat
  mismatches : List ReconciliationMismatch
deriving DecidableEq

/-- Model of `handleDecision` of the reconcile route (lines 94-126): apply the
decision function to one pending contribution and the provider-reported
status and total; `update` persists the status (and re-runs the funding
check when completed), `mismatch` records the mismatch and counts it
unresolved, `noAction` counts it unresolved. -/
def handleDecision (db : Db) (now : Int) (counters : PassCounters)
    (c : Contribution) (status : PaymentStatus) (total : Option Int) :
    Db × PassCounters :=
  match decideReconciliation status (getExpectedTotal c.amountCents c.feeCents) total with
  | .update newStatus =>
    if newStatus = .completed then
      (markDreamBoardFundedIfNeeded (updateContributionStatus db now c.id newStatus)
        now c.dreamBoardId,
       { counters with updated := counters.updated + 1 })
    else (updateContributionStatus db now c.id newStatus,
          { counters with failed := counters.failed + 1 })
  | .mismatch expected received st =>
    (db,
     { counters with
        mismatches := counters.mismatches ++
          [⟨c.paymentProvider, c.paymentRef, expected, received, st⟩],
        unresolved := counters.unresolved + 1 })
  | .noAction => (db, { counters with unresolved := counters.unresolved + 1 })

/-- Modelled from the spec: `getReconciliationWindow` of
`lib/payments/reconciliation` is imported by the reconcile route but the
module is not under src/.  Spec §4.4 step 1: `cutoff = now −
minimumAgeBuffer`, `lookbackStart = cutoff − primaryLookbackDuration`.
Returns `(lookbackStart, cutoff)`; times are milliseconds since epoch. -/
def getReconciliationWindow (minimumAgeBufferMs primaryLookbackMs : Int)
    (now : Int) : Int × Int :=
  let cutoff := now - minimumAgeBufferMs
  (cutoff - primaryLookbackMs, cutoff)

/-- Modelled from the spec: `getLongTailStart` of
`lib/payments/reconciliation` is imported by the reconcile route but the
module is not under src/.  Spec §4.4 step 1: `longTailStart = cutoff −
totalLookbackDuration`. -/
def getLongTailStart (minimumAgeBufferMs totalLookbackMs : Int) (now : Int) : Int :=
  now - minimumAgeBufferMs - totalLookbackMs

/-- Modelled from the spec: `listContributionsForReconciliation` is imported
from `lib/db/queries` by the reconcile route but is not in the queries
module under src/.  Spec §4.4 step 2: contributions with status in
{pending, processing} and `createdAt ∈ [lookbackStart, cutoff)`. -/
def listContributionsForReconciliation (db : Db) (lookbackStart cutoff : Int) :
    List Contribution :=
  db.contributions.filter
    (fun c =>
      (c.paymentStatus == PaymentStatus.pending
        || c.paymentStatus == PaymentStatus.processing)
      && decide (lookbackStart ≤ c.createdAt) && decide (c.createdAt < cutoff))

/-- Modelled from the spec: `listContributionsForLongTailReconciliation` is
imported from `lib/db/queries` by the reconcile route but is not in the
queries module under src/.  Spec §4.4 step 3: contributions with status in
{pending, processing} and `createdAt ∈ [longTailStart, lookbackStart)`;
the route also passes `cutoff`, which does not narrow this window further
since `lookbackStart ≤ cutoff`. -/
def listContributionsForLongTailReconciliation (db : Db)
    (longTailStart lookbackStart _cutoff : Int) : List Contribution :=
  db.contributions.filter
    (fun c =>
      (c.paymentStatus == PaymentStatus.pending
        || c.paymentStatus == PaymentStatus.processing)
      && decide (longTailStart ≤ c.createdAt) && decide (c.createdAt < lookbackStart))

/-- The scan portion of the reconciliation `POST` (reconcile route lines
309-354): compute the window, fetch the primary set, and fetch the
long-tail set only when `longTailStart < lookbackStart` (otherwise skip
the long-tail pass and log).  Returns (primary set, long-tail set,
whether the long-tail pass ran). -/
def reconcileScanSets (minimumAgeBufferMs primaryLookbackMs totalLookbackMs : Int)
    (db : Db) (now : Int) : List Contribution × List Contribution × Bool :=
  if getLongTailStart minimumAgeBufferMs totalLookbackMs now
      < (getReconciliationWindow minimumAgeBufferMs primaryLookbackMs now).1 then
    (listContributionsForReconciliation db
       (getReconciliationWindow minimumAgeBufferMs primaryLookbackMs now).1
       (getReconciliationWindow minimumAgeBufferMs primaryLookbackMs now).2,
     listContributionsForLongTailReconciliation db
       (getLongTailStart minimumAgeBufferMs totalLookbackMs now)
       (getReconciliationWindow minimumAgeBufferMs primaryLookbackMs now).1
       (getReconciliationWindow minimumAgeBufferMs primaryLookbackMs now).2,
     true)
  else
    (listContributionsForReconciliation db
       (getReconciliationWindow minimumAgeBufferMs primaryLookbackMs now).1
       (getReconciliationWindow minimumAgeBufferMs primaryLookbackMs now).2,
     [], false)

/-- Model of `HOUR_SECONDS` (rate-limit.ts line 3). -/
def HOUR_SECONDS : Int := 60 * 60

/-- Model of `MINUTE_SECONDS` (rate-limit.ts line 4). -/
def MINUTE_SECONDS : Int := 60

/-- One KV counter key as the Redis-style store holds it: its count and,
when `EXPIRE` has been applied, its absolute expiry time (seconds). -/
structure KvEntry where
  count : Nat
  expiresAt : Option Int
deriving DecidableEq

/-- State of the two counters (`rate:api:<key>:hour`, `rate:api:<key>:minute`)
behind `enforceApiRateLimit` for one key id; `none` means the key does not
exist. -/
structure ApiRateState where
  hour : Option KvEntry
  minute : Option KvEntry
deriving DecidableEq

/-- A key as visible at time `now`: an entry whose expiry has passed is
gone (Redis TTL expiry). -/
def liveEntry (now : Int) : Option KvEntry → Option KvEntry
  | none => none
  | some e =>
    match e.expiresAt with
    | none => some e
    | some t => if t ≤ now then none else some e

/-- Model of `kv.incr`: increment the key's count, creating it at 1 (with no expiry)
when absent or expired; returns the new entry and the new count. -/
def kvIncr (now : Int) (e : Option KvEntry) : KvEntry × Nat :=
  match liveEntry now e with
  | none => (⟨1, none⟩, 1)
  | some k => (⟨k.count + 1, k.expiresAt⟩, k.count + 1)

/-- Model of `kv.expire(key, seconds, 'NX')`: set the expiry only when the key has
none. -/
def kvExpireNX (now seconds : Int) (e : KvEntry) : KvEntry :=
  match e.expiresAt with
  | none => ⟨e.count, some (now + seconds)⟩
  | some _ => e

/-- Model of `kv.ttl`: remaining seconds, `-1` when no expiry is set. -/
def kvTtl (now : Int) (e : KvEntry) : Int :=
  match e.expiresAt with
  | none => -1
  | some t => t - now

/-- The result record of `enforceApiRateLimit` (rate-limit.ts lines 6-12). -/
structure ApiRateLimitResult where
  allowed : Bool
  limit : Int
  remaining : Int
  reset : Int
  retryAfterSeconds : Option Int
deriving DecidableEq

/-- The hour counter's count after the increment of one
`enforceApiRateLimit` call. -/
def hourCountAfter (now : Int) (st : ApiRateState) : Nat :=
  (kvIncr now st.hour).2

/-- The minute counter's count after the increment of one
`enforceApiRateLimit` call. -/
def minuteCountAfter (now : Int) (st : ApiRateState) : Nat :=
  (kvIncr now st.minute).2

/-- The hour entry after the increment and the set-if-absent expiry. -/
def hourEntryAfter (now : Int) (st : ApiRateState) : KvEntry :=
  kvExpireNX now HOUR_SECONDS (kvIncr now st.hour).1

/-- The minute entry after the increment and the set-if-absent expiry. -/
def minuteEntryAfter (now : Int) (st : ApiRateState) : KvEntry :=
  kvExpireNX now MINUTE_SECONDS (kvIncr now st.minute).1

/-- Model of `hourResetSeconds` (rate-limit.ts line 50): the hour window's remaining
TTL, falling back to a full window when the TTL is not positive. -/
def hourResetSeconds (now : Int) (st : ApiRateState) : Int :=
  let ttl := kvTtl now (hourEntryAfter now st)
  if ttl > 0 then ttl else HOUR_SECONDS

/-- Model of `minuteResetSeconds` (rate-limit.ts line 51). -/
def minuteResetSeconds (now : Int) (st : ApiRateState) : Int :=
  let ttl := kvTtl now (minuteEntryAfter now st)
  if ttl > 0 then ttl else MINUTE_SECONDS

/-- Model of `hourExceeded` (rate-limit.ts line 47): the incremented hour count
strictly exceeds the hour limit. -/
def hourExceeded (now limit : Int) (st : ApiRateState) : Bool :=
  decide ((hourCountAfter now st : Int) > limit)

/-- Model of `minuteExceeded` (rate-limit.ts line 48): the incremented minute count
strictly exceeds the burst limit. -/
def minuteExceeded (now burst : Int) (st : ApiRateState) : Bool :=
  decide ((minuteCountAfter now st : Int) > burst)

/-- Model of `limitingResetSeconds` (rate-limit.ts line 52): the hour window's
remaining time when the hour is exceeded, the minute window's otherwise. -/
def limitingResetSeconds (now limit : Int) (st : ApiRateState) : Int :=
  if hourExceeded now limit st then hourResetSeconds now st else minuteResetSeconds now st

/-- Model of `enforceApiRateLimit` (rate-limit.ts lines 30-64) for one key id, over
the embedded KV state; `now` is in whole seconds (the source's
`Math.floor((Date.now() + resetSeconds * 1000) / 1000)` is `now +
resetSeconds` on a whole-second clock).  Returns the updated KV state and
the result record. -/
def enforceApiRateLimit (now : Int) (limit burst : Int) (st : ApiRateState) :
    ApiRateState × ApiRateLimitResult :=
  if !hourExceeded now limit st && !minuteExceeded now burst st then
    (⟨some (hourEntryAfter now st), some (minuteEntryAfter now st)⟩,
     ⟨true, limit, max 0 (limit - hourCountAfter now st),
      now + hourResetSeconds now st, none⟩)
  else
    (⟨some (hourEntryAfter now st), some (minuteEntryAfter now st)⟩,
     ⟨false, limit, max 0 (limit - hourCountAfter now st),
      now + limitingResetSeconds now limit st,
      some (limitingResetSeconds now limit st)⟩)

/-- Run one `enforceApiRateLimit` call per listed request time, threading
the KV state, and collect the per-request results. -/
def runApiRateRequests (limit burst : Int) : List Int → ApiRateState → List ApiRateLimitResult
  | [], _ => []
  | t :: ts, st =>
    (enforceApiRateLimit t limit burst st).2
      :: runApiRateRequests limit burst ts (enforceApiRateLimit t limit burst st).1

/-- The webhook rejection code set spec §6 claims: {invalid_signature,
invalid_source, invalid_merchant, invalid_payload, missing_reference,
not_found, amount_missing, amount_mismatch, rate_limited,
invalid_timestamp}. -/
def claimedWebhookErrorCodes : List String :=
  ["invalid_signature", "invalid_source", "invalid_merchant", "invalid_payload",
   "missing_reference", "not_found", "amount_missing", "amount_mismatch",
   "rate_limited", "invalid_timestamp"]

/-- The rejection codes the three webhook routes actually emit: the claimed
set plus the payfast route's `invalid_itn` (payfast route line 41) and
`missing_pf_payment_id` (payfast route line 67). -/
def actualWebhookErrorCodes : List String :=
  claimedWebhookErrorCodes ++ ["invalid_itn", "missing_pf_payment_id"]

/-- Whether a response body is a rejection carrying an error code from
`codes`. -/
def rejectionCodeIn (codes : List String) (b : RespBody) : Bool :=
  match bodyErrorCode b with
  | some code => codes.contains code
  | none => false

theorem str_data_nil (s : String) (h : s.data.length = 0) : s = "" := by
  cases s with
  | mk data =>
    have : data = [] := by simpa using h
    simp [this]

theorem lowerStr_len_eq (s t : String) (h : lowerStr s = lowerStr t) :
    s.data.length = t.data.length := by
  have h2 := congrArg String.data h
  simp only [lowerStr] at h2
  have := congrArg List.length h2
  simpa using this

theorem mapSnap_range (raw : Option String) :
    mapSnapScanStatus raw = .completed ∨ mapSnapScanStatus raw = .processing
      ∨ mapSnapScanStatus raw = .failed := by
  cases raw with
  | none => exact Or.inr (Or.inl rfl)
  | some s =>
    simp only [mapSnapScanStatus]
    split
    · exact Or.inr (Or.inl rfl)
    · split
      · exact Or.inl rfl
      · split
        · exact Or.inr (Or.inr rfl)
        · exact Or.inr (Or.inl rfl)

theorem mapOzow_range (raw : Option String) :
    mapOzowStatus raw = .completed ∨ mapOzowStatus raw = .processing
      ∨ mapOzowStatus raw = .failed := by
  cases raw with
  | none => exact Or.inr (Or.inl rfl)
  | some s =>
    simp only [mapOzowStatus]
    split
    · exact Or.inr (Or.inl rfl)
    · split
      · exact Or.inl rfl
      · split
        · exact Or.inr (Or.inr rfl)
        · exact Or.inr (Or.inl rfl)

theorem mapSnap_lower_congr (s t : String) (h : lowerStr s = lowerStr t) :
    mapSnapScanStatus (some s) = mapSnapScanStatus (some t) := by
  by_cases hs : s = ""
  · subst hs
    have ht : t = "" := str_data_nil t (by simpa using (lowerStr_len_eq _ _ h).symm)
    subst ht
    rfl
  · have ht : t ≠ "" := fun hteq => by
      subst hteq
      exact hs (str_data_nil s (by simpa using lowerStr_len_eq _ _ h))
    simp only [mapSnapScanStatus]
    rw [h]
    simp [hs, ht]

theorem mapOzow_lower_congr (s t : String) (h : lowerStr s = lowerStr t) :
    mapOzowStatus (some s) = mapOzowStatus (some t) := by
  by_cases hs : s = ""
  · subst hs
    have ht : t = "" := str_data_nil t (by simpa using (lowerStr_len_eq _ _ h).symm)
    subst ht
    rfl
  · have ht : t ≠ "" := fun hteq => by
      subst hteq
      exact hs (str_data_nil s (by simpa using lowerStr_len_eq _ _ h))
    simp only [mapOzowStatus]
    rw [h]
    simp [hs, ht]

theorem mapSnap_unrecognized (s : String)
    (h1 : snapSuccessTokens.any (fun v => strIncludes (lowerStr s) v) = false)
    (h2 : failureTokens.any (fun v => strIncludes (lowerStr s) v) = false) :
    mapSnapScanStatus (some s) = .processing := by
  by_cases hs : s = ""
  · subst hs; rfl
  · simp only [mapSnapScanStatus]
    simp [hs, h1, h2]

theorem mapOzow_unrecognized (s : String)
    (h1 : ozowSuccessTokens.any (fun v => strIncludes (lowerStr s) v) = false)
    (h2 : failureTokens.any (fun v => strIncludes (lowerStr s) v) = false) :
    mapOzowStatus (some s) = .processing := by
  by_cases hs : s = ""
  · subst hs; rfl
  · simp only [mapOzowStatus]
    simp [hs, h1, h2]

theorem mapSnap_success_token (s : String)
    (h : snapSuccessTokens.any (fun v => strIncludes (lowerStr s) v) = true) :
    mapSnapScanStatus (some s) = .completed := by
  by_cases hs : s = ""
  · subst hs
    exact absurd h (by decide)
  · simp only [mapSnapScanStatus]
    simp [hs, h]

theorem mapOzow_success_token (s : String)
    (h : ozowSuccessTokens.any (fun v => strIncludes (lowerStr s) v) = true) :
    mapOzowStatus (some s) = .completed := by
  by_cases hs : s = ""
  · subst hs
    exact absurd h (by decide)
  · simp only [mapOzowStatus]
    simp [hs, h]

/-- C7: for every payload, the status-mapping functions return one of
{completed, processing, failed}; matching is case-insensitive (strings
with equal lowercase forms map identically); a missing (or empty, which
the JavaScript falsiness test treats as missing) status maps to
`processing`; and any status string containing no known success or
failure token maps to `processing` — in particular never to `failed`. -/
theorem C7_status_mapping :
    (∀ raw : Option String,
        mapSnapScanStatus raw = .completed ∨ mapSnapScanStatus raw = .processing
          ∨ mapSnapScanStatus raw = .failed)
    ∧ (∀ raw : Option String,
        mapOzowStatus raw = .completed ∨ mapOzowStatus raw = .processing
          ∨ mapOzowStatus raw = .failed)
    ∧ (∀ s t : String, lowerStr s = lowerStr t →
        mapSnapScanStatus (some s) = mapSnapScanStatus (some t))
    ∧ (∀ s t : String, lowerStr s = lowerStr t →
        mapOzowStatus (some s) = mapOzowStatus (some t))
    ∧ (mapSnapScanStatus none = .processing ∧ mapOzowStatus none = .processing
        ∧ mapSnapScanStatus (some "") = .processing ∧ mapOzowStatus (some "") = .processing)
    ∧ (∀ s : String,
        snapSuccessTokens.any (fun v => strIncludes (lowerStr s) v) = false →
        failureTokens.any (fun v => strIncludes (lowerStr s) v) = false →
        mapSnapScanStatus (some s) = .processing)
    ∧ (∀ s : String,
        ozowSuccessTokens.any (fun v => strIncludes (lowerStr s) v) = false →
        failureTokens.any (fun v => strIncludes (lowerStr s) v) = false →
        mapOzowStatus (some s) = .processing) :=
  ⟨mapSnap_range, mapOzow_range, mapSnap_lower_congr, mapOzow_lower_congr,
   ⟨rfl, rfl, rfl, rfl⟩, mapSnap_unrecognized, mapOzow_unrecognized⟩

/-- C7 witness: the unrecognized status string "weird in flight" contains
no success and no failure token and maps to `processing`, and the mixed-case
"PAID" maps like "paid". -/
theorem C7_status_mapping_witness :
    (snapSuccessTokens.any (fun v => strIncludes (lowerStr "weird in flight") v) = false
      ∧ failureTokens.any (fun v => strIncludes (lowerStr "weird in flight") v) = false
      ∧ mapSnapScanStatus (some "weird in flight") = .processing)
    ∧ (lowerStr "PAID" = lowerStr "paid"
      ∧ mapOzowStatus (some "PAID") = mapOzowStatus (some "paid")) :=
  ⟨⟨by decide, by decide,
    C7_status_mapping.2.2.2.2.2.1 "weird in flight" (by decide) (by decide)⟩,
   ⟨by decide, C7_status_mapping.2.2.2.1 "PAID" "paid" (by decide)⟩⟩

/-- C10: vocabulary matching is by substring containment and the success
list is checked before the failure list: any status string whose lowercase
form contains a success token maps to `completed`, even when a failure
token is also contained; in particular the not-semantically-successful
string "unpaid" maps to `completed` under both mappers. -/
theorem C10_substring_containment :
    (∀ s : String,
        snapSuccessTokens.any (fun v => strIncludes (lowerStr s) v) = true →
        mapSnapScanStatus (some s) = .completed)
    ∧ (∀ s : String,
        ozowSuccessTokens.any (fun v => strIncludes (lowerStr s) v) = true →
        mapOzowStatus (some s) = .completed)
    ∧ mapSnapScanStatus (some "unpaid") = .completed
    ∧ mapOzowStatus (some "unpaid") = .completed
    ∧ mapSnapScanStatus (some "Failed_but_PAID") = .completed
    ∧ mapOzowStatus (some "Failed_but_PAID") = .completed :=
  ⟨mapSnap_success_token, mapOzow_success_token,
   by decide, by decide, by decide, by decide⟩

/-- C10 witness: "unpaid" contains the success token "paid", so the first
clause applies and yields `completed`. -/
theorem C10_substring_containment_witness :
    snapSuccessTokens.any (fun v => strIncludes (lowerStr "unpaid") v) = true
    ∧ mapSnapScanStatus (some "unpaid") = .completed :=
  ⟨by decide, C10_substring_containment.1 "unpaid" (by decide)⟩

theorem verifySnap_empty_key (hmacSha256Hex : String → String → String)
    (rawBody : String) (authorization : Option String) :
    verifySnapScanSignature hmacSha256Hex "" rawBody authorization = false := by
  unfold verifySnapScanSignature
  split
  · rfl
  · rfl

theorem verifyOzow_no_secret (svixVerify : String → String → SvixHeaders → Option OzowPayload)
    (rawBody : String) (headers : SvixHeaders) :
    verifyOzowWebhook svixVerify none rawBody headers = none := rfl

theorem verifyOzow_empty_secret (svixVerify : String → String → SvixHeaders → Option OzowPayload)
    (rawBody : String) (headers : SvixHeaders) :
    verifyOzowWebhook svixVerify (some "") rawBody headers = none := rfl

theorem ozowPOST_unconfigured_secret
    (svixVerify : String → String → SvixHeaders → Option OzowPayload)
    (secret : Option String) (hsec : secret = none ∨ secret = some "")
    (rl : RateLimitOutcome) (hrl : rl.allowed = true) (req : OzowRequest) (db : Db) (now : Int) :
    ozowPOST svixVerify secret rl req db now = ⟨⟨400, .err "invalid_signature"⟩, db, []⟩ := by
  have hv : verifyOzowWebhook svixVerify secret req.rawBody (svixHeadersOf req) = none := by
    rcases hsec with h | h <;> subst h <;> rfl
  unfold ozowPOST
  rw [hrl, hv]
  rfl

theorem snapscanPOST_unconfigured_key (hmacSha256Hex : String → String → String)
    (parsePayload : String → Option SnapPayload) (validateTs : String → Bool)
    (rl : RateLimitOutcome) (hrl : rl.allowed = true) (req : SnapscanRequest)
    (db : Db) (now : Int) :
    snapscanPOST hmacSha256Hex "" parsePayload validateTs rl req db now
      = ⟨⟨400, .err "invalid_signature"⟩, db, []⟩ := by
  unfold snapscanPOST
  rw [hrl, verifySnap_empty_key]
  rfl

/-- C9: with an unconfigured webhook secret, signature verification fails
closed for every input — `verifySnapScanSignature` returns false and
`verifyOzowWebhook` returns null whatever the body and headers — and
consequently every (non-rate-limited) callback to the snapscan or ozow
endpoint is rejected with `invalid_signature`, with the store untouched
and no writes issued. -/
theorem C9_fail_closed_signatures :
    (∀ (hmacSha256Hex : String → String → String) (rawBody : String)
        (authorization : Option String),
        verifySnapScanSignature hmacSha256Hex "" rawBody authorization = false)
    ∧ (∀ (svixVerify : String → String → SvixHeaders → Option OzowPayload)
        (rawBody : String) (headers : SvixHeaders),
        verifyOzowWebhook svixVerify none rawBody headers = none
          ∧ verifyOzowWebhook svixVerify (some "") rawBody headers = none)
    ∧ (∀ (svixVerify : String → String → SvixHeaders → Option OzowPayload)
        (secret : Option String) (rl : RateLimitOutcome) (req : OzowRequest)
        (db : Db) (now : Int),
        (secret = none ∨ secret = some "") → rl.allowed = true →
        ozowPOST svixVerify secret rl req db now
          = ⟨⟨400, .err "invalid_signature"⟩, db, []⟩)
    ∧ (∀ (hmacSha256Hex : String → String → String)
        (parsePayload : String → Option SnapPayload) (validateTs : String → Bool)
        (rl : RateLimitOutcome) (req : SnapscanRequest) (db : Db) (now : Int),
        rl.allowed = true →
        snapscanPOST hmacSha256Hex "" parsePayload validateTs rl req db now
          = ⟨⟨400, .err "invalid_signature"⟩, db, []⟩) :=
  ⟨verifySnap_empty_key,
   fun sv rb h => ⟨verifyOzow_no_secret sv rb h, verifyOzow_empty_secret sv rb h⟩,
   fun sv secret rl req db now hsec hrl =>
     ozowPOST_unconfigured_secret sv secret hsec rl hrl req db now,
   fun hm pp ts rl req db now hrl =>
     snapscanPOST_unconfigured_key hm pp ts rl hrl req db now⟩

/-- C9 witness: at a concrete request and store, the ozow endpoint with no
configured secret answers 400 `invalid_signature` and leaves the store
unchanged. -/
theorem C9_fail_closed_signatures_witness :
    ozowPOST (fun _ _ _ => some ⟨some "r", some 100, some "paid"⟩) none
        ⟨true, none⟩ ⟨"body", none, none, none⟩ ⟨[], []⟩ 0
      = ⟨⟨400, .err "invalid_signature"⟩, ⟨[], []⟩, []⟩ :=
  C9_fail_closed_signatures.2.2.1
    (fun _ _ _ => some ⟨some "r", some 100, some "paid"⟩) none
    ⟨true, none⟩ ⟨"body", none, none, none⟩ ⟨[], []⟩ 0 (Or.inl rfl) rfl

theorem updateContributionStatus_boards (db : Db) (now : Int) (id : Nat) (s : PaymentStatus) :
    (updateContributionStatus db now id s).boards = db.boards := rfl

theorem mark_preserves_funded (db : Db) (now : Int) (bid : Nat) (i : Nat)
    (h : boardStatusAt db i = some .funded) :
    boardStatusAt (markDreamBoardFundedIfNeeded db now bid) i = some .funded := by
  unfold markDreamBoardFundedIfNeeded
  split
  · exact h
  · split
    · exact h
    · split
      · exact h
      · unfold boardStatusAt at h ⊢
        simp only [List.getElem?_map] at h ⊢
        cases hb : db.boards[i]? with
        | none => rw [hb] at h; simp at h
        | some b =>
          rw [hb] at h
          simp at h
          simp [hb]
          split <;> simp [h]

theorem mark_flips_when_due (db : Db) (now : Int) (bid : Nat) (board : DreamBoard)
    (h1 : getBoard db bid = some board) (h2 : board.status = .active)
    (h3 : board.goalCents ≤ raisedCents db bid) :
    markDreamBoardFundedIfNeeded db now bid =
      { db with
        boards := db.boards.map
          (fun b => if b.id == bid then { b with status := .funded, updatedAt := now } else b) } := by
  unfold markDreamBoardFundedIfNeeded
  rw [h1]
  simp [h2, not_lt.mpr h3]

theorem mark_noop_not_active (db : Db) (now : Int) (bid : Nat) (board : DreamBoard)
    (h1 : getBoard db bid = some board) (h2 : board.status ≠ .active) :
    markDreamBoardFundedIfNeeded db now bid = db := by
  unfold markDreamBoardFundedIfNeeded
  rw [h1]
  simp [h2]

theorem mark_noop_below_goal (db : Db) (now : Int) (bid : Nat) (board : DreamBoard)
    (h1 : getBoard db bid = some board) (h2 : raisedCents db bid < board.goalCents) :
    markDreamBoardFundedIfNeeded db now bid = db := by
  unfold markDreamBoardFundedIfNeeded
  rw [h1]
  by_cases h : board.status = .active <;> simp [h, h2]

theorem mark_noop_no_board (db : Db) (now : Int) (bid : Nat)
    (h1 : getBoard db bid = none) :
    markDreamBoardFundedIfNeeded db now bid = db := by
  unfold markDreamBoardFundedIfNeeded
  rw [h1]

theorem update_preserves_funded (db : Db) (now : Int) (id : Nat) (s : PaymentStatus) (i : Nat)
    (h : boardStatusAt db i = some .funded) :
    boardStatusAt (updateContributionStatus db now id s) i = some .funded := h

theorem ozowPOST_preserves_funded
    (sv : String → String → SvixHeaders → Option OzowPayload) (secret : Option String)
    (rl : RateLimitOutcome) (req : OzowRequest) (db : Db) (now : Int) (i : Nat)
    (h : boardStatusAt db i = some .funded) :
    boardStatusAt (ozowPOST sv secret rl req db now).db i = some .funded := by
  unfold ozowPOST
  repeat' split
  all_goals first
    | exact h
    | exact mark_preserves_funded _ _ _ _ h

theorem snapscanPOST_preserves_funded (hm : String → String → String) (key : String)
    (pp : String → Option SnapPayload) (ts : String → Bool)
    (rl : RateLimitOutcome) (req : SnapscanRequest) (db : Db) (now : Int) (i : Nat)
    (h : boardStatusAt db i = some .funded) :
    boardStatusAt (snapscanPOST hm key pp ts rl req db now).db i = some .funded := by
  unfold snapscanPOST
  repeat' split
  all_goals first
    | exact h
    | exact mark_preserves_funded _ _ _ _ h

theorem payfastPOST_preserves_funded (pf : PayfastOutcomes) (db : Db) (now : Int) (i : Nat)
    (h : boardStatusAt db i = some .funded) :
    boardStatusAt (payfastPOST pf db now).db i = some .funded := by
  unfold payfastPOST
  repeat' split
  all_goals first
    | exact h
    | exact mark_preserves_funded _ _ _ _ h

theorem handleDecision_preserves_funded (db : Db) (now : Int) (counters : PassCounters)
    (c : Contribution) (status : PaymentStatus) (total : Option Int) (i : Nat)
    (h : boardStatusAt db i = some .funded) :
    boardStatusAt (handleDecision db now counters c status total).1 i = some .funded := by
  unfold handleDecision
  repeat' split
  all_goals first
    | exact h
    | exact mark_preserves_funded _ _ _ _ h

theorem ozowPOST_completed_noop
    (sv : String → String → SvixHeaders → Option OzowPayload) (secret : Option String)
    (rl : RateLimitOutcome) (req : OzowRequest) (db : Db) (now : Int)
    (p : OzowPayload) (r : String) (c : Contribution)
    (hrl : rl.allowed = true)
    (hv : verifyOzowWebhook sv secret req.rawBody (svixHeadersOf req) = some p)
    (hr : extractOzowReference p = some r)
    (hc : getContributionByPaymentRef db .ozow r = some c)
    (hst : c.paymentStatus = .completed) :
    ozowPOST sv secret rl req db now = ⟨⟨200, .received⟩, db, []⟩ := by
  simp [ozowPOST, hrl, hv, hr, hc, hst]

theorem snapscanPOST_completed_noop (hm : String → String → String) (key : String)
    (pp : String → Option SnapPayload) (ts : String → Bool)
    (rl : RateLimitOutcome) (req : SnapscanRequest) (db : Db) (now : Int)
    (p : SnapPayload) (r : String) (c : Contribution)
    (hrl : rl.allowed = true)
    (hsig : verifySnapScanSignature hm key req.rawBody req.authorization = true)
    (hp : pp req.rawBody = some p)
    (hts : snapTimestampRejected ts p = false)
    (hr : extractSnapScanReference p = some r)
    (hc : getContributionByPaymentRef db .snapscan r = some c)
    (hst : c.paymentStatus = .completed) :
    snapscanPOST hm key pp ts rl req db now = ⟨⟨200, .received⟩, db, []⟩ := by
  simp [snapscanPOST, hrl, hsig, hp, hts, hr, hc, hst]

theorem payfastPOST_completed_noop (pf : PayfastOutcomes) (db : Db) (now : Int)
    (r : String) (c : Contribution)
    (h1 : pf.signatureOk = true)
    (h2 : (pf.isProduction && !pf.sourceOk) = false)
    (h3 : pf.itnValid = true)
    (h4 : pf.merchantOk = true)
    (h5 : jsFalsyStr pf.pfPaymentId = false)
    (h6 : pf.paymentRef = some r)
    (h7 : (r == "") = false)
    (hc : getContributionByPaymentRef db .payfast r = some c)
    (hst : c.paymentStatus = .completed) :
    payfastPOST pf db now = ⟨⟨200, .received⟩, db, []⟩ := by
  simp [payfastPOST, h1, h2, h3, h4, h5, h6, h7, hc, hst]

theorem ozowPOST_write_implies_amount
    (sv : String → String → SvixHeaders → Option OzowPayload) (secret : Option String)
    (rl : RateLimitOutcome) (req : OzowRequest) (db : Db) (now : Int)
    (id : Nat) (s : PaymentStatus)
    (hmem : DbWrite.updateStatus id s ∈ (ozowPOST sv secret rl req db now).writes) :
    ∃ p r c, verifyOzowWebhook sv secret req.rawBody (svixHeadersOf req) = some p
      ∧ extractOzowReference p = some r
      ∧ getContributionByPaymentRef db .ozow r = some c
      ∧ id = c.id ∧ s = mapOzowStatus p.rawStatus
      ∧ parseOzowAmountCents p = some (c.amountCents + c.feeCents) := by
  unfold ozowPOST at hmem
  repeat' split at hmem
  all_goals simp_all

theorem snapscanPOST_write_implies_amount (hm : String → String → String) (key : String)
    (pp : String → Option SnapPayload) (ts : String → Bool)
    (rl : RateLimitOutcome) (req : SnapscanRequest) (db : Db) (now : Int)
    (id : Nat) (s : PaymentStatus)
    (hmem : DbWrite.updateStatus id s ∈ (snapscanPOST hm key pp ts rl req db now).writes) :
    ∃ p r c, pp req.rawBody = some p
      ∧ extractSnapScanReference p = some r
      ∧ getContributionByPaymentRef db .snapscan r = some c
      ∧ id = c.id ∧ s = mapSnapScanStatus p.rawStatus
      ∧ parseSnapScanAmountCents p = some (c.amountCents + c.feeCents) := by
  unfold snapscanPOST at hmem
  repeat' split at hmem
  all_goals simp_all

theorem payfastPOST_write_implies_amount (pf : PayfastOutcomes) (db : Db) (now : Int)
    (id : Nat) (s : PaymentStatus)
    (hmem : DbWrite.updateStatus id s ∈ (payfastPOST pf db now).writes) :
    ∃ r c, pf.paymentRef = some r
      ∧ getContributionByPaymentRef db .payfast r = some c
      ∧ id = c.id ∧ s = pf.mappedStatus
      ∧ pf.amountGross = some (c.amountCents + c.feeCents)
      ∧ c.amountCents + c.feeCents ≠ 0 := by
  unfold payfastPOST at hmem
  repeat' split at hmem
  all_goals simp_all
  all_goals omega

theorem ozowPOST_bad_amount_rejects
    (sv : String → String → SvixHeaders → Option OzowPayload) (secret : Option String)
    (rl : RateLimitOutcome) (req : OzowRequest) (db : Db) (now : Int)
    (p : OzowPayload) (r : String) (c : Contribution)
    (hv : verifyOzowWebhook sv secret req.rawBody (svixHeadersOf req) = some p)
    (hr : extractOzowReference p = some r)
    (hc : getContributionByPaymentRef db .ozow r = some c)
    (hst : c.paymentStatus ≠ .completed)
    (hbad : parseOzowAmountCents p = none
      ∨ parseOzowAmountCents p ≠ some (c.amountCents + c.feeCents)) :
    is2xx (ozowPOST sv secret rl req db now).response.status = false
    ∧ (ozowPOST sv secret rl req db now).db = db
    ∧ (ozowPOST sv secret rl req db now).writes = [] := by
  by_cases hrl : rl.allowed = true
  · cases hpa : parseOzowAmountCents p with
    | none => simp [ozowPOST, is2xx, hrl, hv, hr, hc, hst, hpa]
    | some a =>
      have hne : a ≠ c.amountCents + c.feeCents := by
        rcases hbad with hb | hb
        · rw [hpa] at hb; exact absurd hb (by simp)
        · rw [hpa] at hb
          intro hEq
          exact hb (by rw [hEq])
      simp [ozowPOST, is2xx, hrl, hv, hr, hc, hst, hpa, hne]
  · have hrl2 : rl.allowed = false := by
      cases h : rl.allowed
      · rfl
      · exact absurd h hrl
    simp [ozowPOST, is2xx, hrl2]

theorem snapscanPOST_bad_amount_rejects (hm : String → String → String) (key : String)
    (pp : String → Option SnapPayload) (ts : String → Bool)
    (rl : RateLimitOutcome) (req : SnapscanRequest) (db : Db) (now : Int)
    (p : SnapPayload) (r : String) (c : Contribution)
    (hp : pp req.rawBody = some p)
    (hr : extractSnapScanReference p = some r)
    (hc : getContributionByPaymentRef db .snapscan r = some c)
    (hst : c.paymentStatus ≠ .completed)
    (hbad : parseSnapScanAmountCents p = none
      ∨ parseSnapScanAmountCents p ≠ some (c.amountCents + c.feeCents)) :
    is2xx (snapscanPOST hm key pp ts rl req db now).response.status = false
    ∧ (snapscanPOST hm key pp ts rl req db now).db = db
    ∧ (snapscanPOST hm key pp ts rl req db now).writes = [] := by
  unfold snapscanPOST
  repeat' split
  all_goals simp_all [is2xx]

theorem payfastPOST_bad_amount_rejects (pf : PayfastOutcomes) (db : Db) (now : Int)
    (r : String) (c : Contribution)
    (h6 : pf.paymentRef = some r)
    (hc : getContributionByPaymentRef db .payfast r = some c)
    (hst : c.paymentStatus ≠ .completed)
    (hbad : pf.amountGross = none
      ∨ pf.amountGross ≠ some (c.amountCents + c.feeCents)) :
    is2xx (payfastPOST pf db now).response.status = false
    ∧ (payfastPOST pf db now).db = db
    ∧ (payfastPOST pf db now).writes = [] := by
  unfold payfastPOST
  repeat' split
  all_goals simp_all [is2xx]

/-- C1: on every webhook path, a `completed` status is persisted only when
the amount parsed from the provider payload equals the contribution's
`amountCents + feeCents` exactly (first three conjuncts: any persisted
status-update write implies the parsed amount equals the expected total);
and whenever the looked-up contribution is not yet completed and the
parsed amount is null or differs, the handler answers a non-2xx response
with the store unchanged and no writes (last three conjuncts). -/
theorem C1_amount_integrity :
    (∀ (sv : String → String → SvixHeaders → Option OzowPayload) (secret : Option String)
        (rl : RateLimitOutcome) (req : OzowRequest) (db : Db) (now : Int) (id : Nat),
        DbWrite.updateStatus id .completed ∈ (ozowPOST sv secret rl req db now).writes →
        ∃ p r c, verifyOzowWebhook sv secret req.rawBody (svixHeadersOf req) = some p
          ∧ extractOzowReference p = some r
          ∧ getContributionByPaymentRef db .ozow r = some c
          ∧ id = c.id
          ∧ parseOzowAmountCents p = some (c.amountCents + c.feeCents))
    ∧ (∀ (hm : String → String → String) (key : String) (pp : String → Option SnapPayload)
        (ts : String → Bool) (rl : RateLimitOutcome) (req : SnapscanRequest)
        (db : Db) (now : Int) (id : Nat),
        DbWrite.updateStatus id .completed ∈ (snapscanPOST hm key pp ts rl req db now).writes →
        ∃ p r c, pp req.rawBody = some p
          ∧ extractSnapScanReference p = some r
          ∧ getContributionByPaymentRef db .snapscan r = some c
          ∧ id = c.id
          ∧ parseSnapScanAmountCents p = some (c.amountCents + c.feeCents))
    ∧ (∀ (pf : PayfastOutcomes) (db : Db) (now : Int) (id : Nat),
        DbWrite.updateStatus id .completed ∈ (payfastPOST pf db now).writes →
        ∃ r c, pf.paymentRef = some r
          ∧ getContributionByPaymentRef db .payfast r = some c
          ∧ id = c.id
          ∧ pf.amountGross = some (c.amountCents + c.feeCents))
    ∧ (∀ (sv : String → String → SvixHeaders → Option OzowPayload) (secret : Option String)
        (rl : RateLimitOutcome) (req : OzowRequest) (db : Db) (now : Int)
        (p : OzowPayload) (r : String) (c : Contribution),
        verifyOzowWebhook sv secret req.rawBody (svixHeadersOf req) = some p →
        extractOzowReference p = some r →
        getContributionByPaymentRef db .ozow r = some c →
        c.paymentStatus ≠ .completed →
        (parseOzowAmountCents p = none
          ∨ parseOzowAmountCents p ≠ some (c.amountCents + c.feeCents)) →
        is2xx (ozowPOST sv secret rl req db now).response.status = false
          ∧ (ozowPOST sv secret rl req db now).db = db
          ∧ (ozowPOST sv secret rl req db now).writes = [])
    ∧ (∀ (hm : String → String → String) (key : String) (pp : String → Option SnapPayload)
        (ts : String → Bool) (rl : RateLimitOutcome) (req : SnapscanRequest)
        (db : Db) (now : Int) (p : SnapPayload) (r : String) (c : Contribution),
        pp req.rawBody = some p →
        extractSnapScanReference p = some r →
        getContributionByPaymentRef db .snapscan r = some c →
        c.paymentStatus ≠ .completed →
        (parseSnapScanAmountCents p = none
          ∨ parseSnapScanAmountCents p ≠ some (c.amountCents + c.feeCents)) →
        is2xx (snapscanPOST hm key pp ts rl req db now).response.status = false
          ∧ (snapscanPOST hm key pp ts rl req db now).db = db
          ∧ (snapscanPOST hm key pp ts rl req db now).writes = [])
    ∧ (∀ (pf : PayfastOutcomes) (db : Db) (now : Int) (r : String) (c : Contribution),
        pf.paymentRef = some r →
        getContributionByPaymentRef db .payfast r = some c →
        c.paymentStatus ≠ .completed →
        (pf.amountGross = none ∨ pf.amountGross ≠ some (c.amountCents + c.feeCents)) →
        is2xx (payfastPOST pf db now).response.status = false
          ∧ (payfastPOST pf db now).db = db
          ∧ (payfastPOST pf db now).writes = []) := by
  refine ⟨?_, ?_, ?_, ?_, ?_, ?_⟩
  · intro sv secret rl req db now id hmem
    rcases ozowPOST_write_implies_amount sv secret rl req db now id _ hmem with
      ⟨p, r, c, h1, h2, h3, h4, _, h6⟩
    exact ⟨p, r, c, h1, h2, h3, h4, h6⟩
  · intro hm key pp ts rl req db now id hmem
    rcases snapscanPOST_write_implies_amount hm key pp ts rl req db now id _ hmem with
      ⟨p, r, c, h1, h2, h3, h4, _, h6⟩
    exact ⟨p, r, c, h1, h2, h3, h4, h6⟩
  · intro pf db now id hmem
    rcases payfastPOST_write_implies_amount pf db now id _ hmem with
      ⟨r, c, h1, h2, h3, _, h5, _⟩
    exact ⟨r, c, h1, h2, h3, h5⟩
  · intro sv secret rl req db now p r c hv hr hc hst hbad
    exact ozowPOST_bad_amount_rejects sv secret rl req db now p r c hv hr hc hst hbad
  · intro hm key pp ts rl req db now p r c hp hr hc hst hbad
    exact snapscanPOST_bad_amount_rejects hm key pp ts rl req db now p r c hp hr hc hst hbad
  · intro pf db now r c h6 hc hst hbad
    exact payfastPOST_bad_amount_rejects pf db now r c h6 hc hst hbad

/-- C1 witness: the spec's scenario B — a pending snapscan contribution of
20000 + 600 cents whose webhook reports 19000 — is rejected non-2xx with
the store unchanged and zero writes. -/
theorem C1_amount_integrity_witness :
    is2xx (snapscanPOST (fun _ _ => "x") "k"
        (fun _ => some ⟨some "r", some 19000, some "completed", none⟩) (fun _ => true)
        ⟨true, none⟩ ⟨"b", some "snapscan signature=x"⟩
        ⟨[⟨1, 2, 20000, 600, 19400, .snapscan, "r", .pending, 0, 0⟩], []⟩ 5).response.status
      = false
    ∧ (snapscanPOST (fun _ _ => "x") "k"
        (fun _ => some ⟨some "r", some 19000, some "completed", none⟩) (fun _ => true)
        ⟨true, none⟩ ⟨"b", some "snapscan signature=x"⟩
        ⟨[⟨1, 2, 20000, 600, 19400, .snapscan, "r", .pending, 0, 0⟩], []⟩ 5).db
      = ⟨[⟨1, 2, 20000, 600, 19400, .snapscan, "r", .pending, 0, 0⟩], []⟩
    ∧ (snapscanPOST (fun _ _ => "x") "k"
        (fun _ => some ⟨some "r", some 19000, some "completed", none⟩) (fun _ => true)
        ⟨true, none⟩ ⟨"b", some "snapscan signature=x"⟩
        ⟨[⟨1, 2, 20000, 600, 19400, .snapscan, "r", .pending, 0, 0⟩], []⟩ 5).writes
      = [] :=
  C1_amount_integrity.2.2.2.2.1 (fun _ _ => "x") "k"
    (fun _ => some ⟨some "r", some 19000, some "completed", none⟩) (fun _ => true)
    ⟨true, none⟩ ⟨"b", some "snapscan signature=x"⟩
    ⟨[⟨1, 2, 20000, 600, 19400, .snapscan, "r", .pending, 0, 0⟩], []⟩ 5
    ⟨some "r", some 19000, some "completed", none⟩ "r"
    ⟨1, 2, 20000, 600, 19400, .snapscan, "r", .pending, 0, 0⟩
    rfl (by decide) (by decide) (by decide) (Or.inr (by decide))

/-- C2: when the looked-up contribution is already `completed`, each of the
three webhook handlers acknowledges with `{received:true}` and performs no
persistence writes, leaving the store exactly as found — a duplicate
delivery of a completed contribution's callback is a pure no-op. -/
theorem C2_idempotent_completed_short_circuit :
    (∀ (sv : String → String → SvixHeaders → Option OzowPayload) (secret : Option String)
        (rl : RateLimitOutcome) (req : OzowRequest) (db : Db) (now : Int)
        (p : OzowPayload) (r : String) (c : Contribution),
        rl.allowed = true →
        verifyOzowWebhook sv secret req.rawBody (svixHeadersOf req) = some p →
        extractOzowReference p = some r →
        getContributionByPaymentRef db .ozow r = some c →
        c.paymentStatus = .completed →
        ozowPOST sv secret rl req db now = ⟨⟨200, .received⟩, db, []⟩)
    ∧ (∀ (hm : String → String → String) (key : String) (pp : String → Option SnapPayload)
        (ts : String → Bool) (rl : RateLimitOutcome) (req : SnapscanRequest)
        (db : Db) (now : Int) (p : SnapPayload) (r : String) (c : Contribution),
        rl.allowed = true →
        verifySnapScanSignature hm key req.rawBody req.authorization = true →
        pp req.rawBody = some p →
        snapTimestampRejected ts p = false →
        extractSnapScanReference p = some r →
        getContributionByPaymentRef db .snapscan r = some c →
        c.paymentStatus = .completed →
        snapscanPOST hm key pp ts rl req db now = ⟨⟨200, .received⟩, db, []⟩)
    ∧ (∀ (pf : PayfastOutcomes) (db : Db) (now : Int) (r : String) (c : Contribution),
        pf.signatureOk = true →
        (pf.isProduction && !pf.sourceOk) = false →
        pf.itnValid = true →
        pf.merchantOk = true →
        jsFalsyStr pf.pfPaymentId = false →
        pf.paymentRef = some r →
        (r == "") = false →
        getContributionByPaymentRef db .payfast r = some c →
        c.paymentStatus = .completed →
        payfastPOST pf db now = ⟨⟨200, .received⟩, db, []⟩) :=
  ⟨fun sv secret rl req db now p r c hrl hv hr hc hst =>
     ozowPOST_completed_noop sv secret rl req db now p r c hrl hv hr hc hst,
   fun hm key pp ts rl req db now p r c hrl hsig hp hts hr hc hst =>
     snapscanPOST_completed_noop hm key pp ts rl req db now p r c hrl hsig hp hts hr hc hst,
   fun pf db now r c h1 h2 h3 h4 h5 h6 h7 hc hst =>
     payfastPOST_completed_noop pf db now r c h1 h2 h3 h4 h5 h6 h7 hc hst⟩

/-- C2 witness: a concrete duplicate delivery for an already-completed ozow
contribution returns the acknowledgement and an unchanged store with zero
writes. -/
theorem C2_idempotent_completed_short_circuit_witness :
    getContributionByPaymentRef
        ⟨[⟨1, 2, 100, 10, 90, .ozow, "r", .completed, 0, 0⟩], []⟩ .ozow "r"
      = some ⟨1, 2, 100, 10, 90, .ozow, "r", .completed, 0, 0⟩
    ∧ ozowPOST (fun _ _ _ => some ⟨some "r", some 110, some "paid"⟩) (some "sec")
        ⟨true, none⟩ ⟨"b", none, none, none⟩
        ⟨[⟨1, 2, 100, 10, 90, .ozow, "r", .completed, 0, 0⟩], []⟩ 5
      = ⟨⟨200, .received⟩, ⟨[⟨1, 2, 100, 10, 90, .ozow, "r", .completed, 0, 0⟩], []⟩, []⟩ :=
  ⟨by decide,
   C2_idempotent_completed_short_circuit.1
     (fun _ _ _ => some ⟨some "r", some 110, some "paid"⟩) (some "sec")
     ⟨true, none⟩ ⟨"b", none, none, none⟩
     ⟨[⟨1, 2, 100, 10, 90, .ozow, "r", .completed, 0, 0⟩], []⟩ 5
     ⟨some "r", some 110, some "paid"⟩ "r"
     ⟨1, 2, 100, 10, 90, .ozow, "r", .completed, 0, 0⟩
     rfl (by decide) (by decide) (by decide) (by decide)⟩

/-- C5: the long-tail pass runs exactly when `longTailStart <
lookbackStart` (and is otherwise skipped with an empty set); the primary
pass scans only contributions with `createdAt ∈ [lookbackStart, cutoff)`,
the long-tail pass only `[longTailStart, lookbackStart)`, and no
contribution is evaluated by both passes of one run. -/
theorem C5_window_disjointness :
    ∀ (minAge primary total : Int) (db : Db) (now : Int),
      ((reconcileScanSets minAge primary total db now).2.2 = true
        ↔ getLongTailStart minAge total now < (getReconciliationWindow minAge primary now).1)
      ∧ (∀ c ∈ (reconcileScanSets minAge primary total db now).1,
          (getReconciliationWindow minAge primary now).1 ≤ c.createdAt
            ∧ c.createdAt < (getReconciliationWindow minAge primary now).2)
      ∧ (∀ c ∈ (reconcileScanSets minAge primary total db now).2.1,
          getLongTailStart minAge total now ≤ c.createdAt
            ∧ c.createdAt < (getReconciliationWindow minAge primary now).1)
      ∧ (∀ c, c ∈ (reconcileScanSets minAge primary total db now).1 →
          c ∈ (reconcileScanSets minAge primary total db now).2.1 → False)
      ∧ ((reconcileScanSets minAge primary total db now).2.2 = false →
          (reconcileScanSets minAge primary total db now).2.1 = []) := by
  intro minAge primary total db now
  by_cases hgate : getLongTailStart minAge total now
      < (getReconciliationWindow minAge primary now).1
  · refine ⟨by simp [reconcileScanSets, hgate], ?_, ?_, ?_, ?_⟩
    · intro c hc
      simp only [reconcileScanSets, hgate, if_pos] at hc
      simp only [listContributionsForReconciliation, List.mem_filter] at hc
      constructor <;> [exact of_decide_eq_true (by simp_all) ; exact of_decide_eq_true (by simp_all)]
    · intro c hc
      simp only [reconcileScanSets, hgate, if_pos] at hc
      simp only [listContributionsForLongTailReconciliation, List.mem_filter] at hc
      constructor <;> [exact of_decide_eq_true (by simp_all) ; exact of_decide_eq_true (by simp_all)]
    · intro c hc1 hc2
      simp only [reconcileScanSets, hgate, if_pos] at hc1 hc2
      simp only [listContributionsForReconciliation,
        listContributionsForLongTailReconciliation, List.mem_filter] at hc1 hc2
      have h1 : (getReconciliationWindow minAge primary now).1 ≤ c.createdAt :=
        of_decide_eq_true (by simp_all)
      have h2 : c.createdAt < (getReconciliationWindow minAge primary now).1 :=
        of_decide_eq_true (by simp_all)
      omega
    · intro h
      simp [reconcileScanSets, hgate] at h
  · refine ⟨by simp [reconcileScanSets, hgate], ?_, ?_, ?_, ?_⟩
    · intro c hc
      simp only [reconcileScanSets, hgate, if_neg] at hc
      simp only [listContributionsForReconciliation, List.mem_filter] at hc
      constructor <;> [exact of_decide_eq_true (by simp_all) ; exact of_decide_eq_true (by simp_all)]
    · intro c hc
      simp [reconcileScanSets, hgate] at hc
    · intro c hc1 hc2
      simp [reconcileScanSets, hgate] at hc2
    · intro _
      simp [reconcileScanSets, hgate]

/-- C5 witness: with a 5-unit age buffer, 10-unit primary lookback and
30-unit total lookback at time 100 (`lookbackStart = 85`, `cutoff = 95`,
`longTailStart = 65`), the long-tail pass runs, and a pending contribution
created at 90 scanned by the primary pass lies within `[85, 95)`. -/
theorem C5_window_disjointness_witness :
    (reconcileScanSets 5 10 30
        ⟨[⟨1, 2, 100, 10, 90, .ozow, "r", .pending, 90, 0⟩], []⟩ 100).2.2 = true
    ∧ ((getReconciliationWindow 5 10 100).1
          ≤ (⟨1, 2, 100, 10, 90, .ozow, "r", .pending, 90, 0⟩ : Contribution).createdAt
        ∧ (⟨1, 2, 100, 10, 90, .ozow, "r", .pending, 90, 0⟩ : Contribution).createdAt
          < (getReconciliationWindow 5 10 100).2) :=
  ⟨(C5_window_disjointness 5 10 30
      ⟨[⟨1, 2, 100, 10, 90, .ozow, "r", .pending, 90, 0⟩], []⟩ 100).1.mpr (by decide),
   (C5_window_disjointness 5 10 30
      ⟨[⟨1, 2, 100, 10, 90, .ozow, "r", .pending, 90, 0⟩], []⟩ 100).2.1
     ⟨1, 2, 100, 10, 90, .ozow, "r", .pending, 90, 0⟩ (by decide)⟩

theorem enforce_denied_iff (now limit burst : Int) (st : ApiRateState) :
    (enforceApiRateLimit now limit burst st).2.allowed = false ↔
      ((hourCountAfter now st : Int) > limit ∨ (minuteCountAfter now st : Int) > burst) := by
  by_cases hh : hourExceeded now limit st <;> by_cases hm : minuteExceeded now burst st <;>
    simp [enforceApiRateLimit, hh, hm] <;>
    simp [hourExceeded, minuteExceeded] at hh hm <;> omega

theorem enforce_hour_binding (now limit burst : Int) (st : ApiRateState)
    (h : (hourCountAfter now st : Int) > limit) :
    (enforceApiRateLimit now limit burst st).2.retryAfterSeconds
      = some (hourResetSeconds now st) := by
  have hh : hourExceeded now limit st = true := by
    simp [hourExceeded]; omega
  simp [enforceApiRateLimit, hh, limitingResetSeconds]

theorem enforce_minute_binding (now limit burst : Int) (st : ApiRateState)
    (h1 : ¬((hourCountAfter now st : Int) > limit))
    (h2 : (minuteCountAfter now st : Int) > burst) :
    (enforceApiRateLimit now limit burst st).2.retryAfterSeconds
      = some (minuteResetSeconds now st) := by
  have hh : hourExceeded now limit st = false := by
    simp [hourExceeded]; omega
  have hm : minuteExceeded now burst st = true := by
    simp [minuteExceeded]; omega
  simp [enforceApiRateLimit, hh, hm, limitingResetSeconds]

theorem enforce_allowed_no_retry (now limit burst : Int) (st : ApiRateState)
    (h : (enforceApiRateLimit now limit burst st).2.allowed = true) :
    (enforceApiRateLimit now limit burst st).2.retryAfterSeconds = none := by
  by_cases hh : hourExceeded now limit st <;> by_cases hm : minuteExceeded now burst st <;>
    simp_all [enforceApiRateLimit, hh, hm]

/-- C8: a request is denied exactly when the incremented hour counter
exceeds the hour limit or the incremented minute counter exceeds the burst
limit; when denied, `retryAfterSeconds` is the remaining time of the
binding window (the hour window when it is exceeded, the minute window
otherwise), and an allowed request carries no retry-after; concretely,
with hourLimit 120 and minuteBurst 20, 121 requests spaced 29 seconds
apart see the first 120 allowed and the 121st denied with retry-after
equal to the hour window's remaining `3600 − 29·120 = 120` seconds. -/
theorem C8_rate_limiter :
    (∀ (now limit burst : Int) (st : ApiRateState),
        (enforceApiRateLimit now limit burst st).2.allowed = false ↔
          ((hourCountAfter now st : Int) > limit ∨ (minuteCountAfter now st : Int) > burst))
    ∧ (∀ (now limit burst : Int) (st : ApiRateState),
        (hourCountAfter now st : Int) > limit →
        (enforceApiRateLimit now limit burst st).2.retryAfterSeconds
          = some (hourResetSeconds now st))
    ∧ (∀ (now limit burst : Int) (st : ApiRateState),
        ¬((hourCountAfter now st : Int) > limit) →
        (minuteCountAfter now st : Int) > burst →
        (enforceApiRateLimit now limit burst st).2.retryAfterSeconds
          = some (minuteResetSeconds now st))
    ∧ (∀ (now limit burst : Int) (st : ApiRateState),
        (enforceApiRateLimit now limit burst st).2.allowed = true →
        (enforceApiRateLimit now limit burst st).2.retryAfterSeconds = none)
    ∧ (((runApiRateRequests 120 20 ((List.range 121).map (fun i => (29 * i : Int)))
          ⟨none, none⟩).take 120).all (fun r => r.allowed) = true
        ∧ ((runApiRateRequests 120 20 ((List.range 121).map (fun i => (29 * i : Int)))
            ⟨none, none⟩)[120]?).map (fun r => (r.allowed, r.retryAfterSeconds))
          = some (false, some (HOUR_SECONDS - 29 * 120))) :=
  ⟨enforce_denied_iff, enforce_hour_binding, enforce_minute_binding,
   enforce_allowed_no_retry,
   by set_option maxRecDepth 100000 in decide⟩

/-- C8 witness: in the state after 120 requests of one hour window (the
counter reads 120 and expires at 3600), the request at 3480 seconds pushes
the hour counter to 121 > 120 and is answered with retry-after equal to
the hour window's remaining 120 seconds. -/
theorem C8_rate_limiter_witness :
    (hourCountAfter 3480 ⟨some ⟨120, some 3600⟩, some ⟨3, some 3509⟩⟩ : Int) > 120
    ∧ (enforceApiRateLimit 3480 120 20
        ⟨some ⟨120, some 3600⟩, some ⟨3, some 3509⟩⟩).2.retryAfterSeconds
      = some (hourResetSeconds 3480 ⟨some ⟨120, some 3600⟩, some ⟨3, some 3509⟩⟩)
    ∧ hourResetSeconds 3480 ⟨some ⟨120, some 3600⟩, some ⟨3, some 3509⟩⟩ = 120 :=
  ⟨by decide,
   C8_rate_limiter.2.1 3480 120 20 ⟨some ⟨120, some 3600⟩, some ⟨3, some 3509⟩⟩ (by decide),
   by decide⟩

theorem ozow_codes
    (sv : String → String → SvixHeaders → Option OzowPayload) (secret : Option String)
    (rl : RateLimitOutcome) (req : OzowRequest) (db : Db) (now : Int) :
    ((is2xx (ozowPOST sv secret rl req db now).response.status
        && ((ozowPOST sv secret rl req db now).response.body == RespBody.received))
      || (!is2xx (ozowPOST sv secret rl req db now).response.status
        && rejectionCodeIn actualWebhookErrorCodes
            (ozowPOST sv secret rl req db now).response.body)) = true := by
  unfold ozowPOST
  repeat' split
  all_goals simp [is2xx, rejectionCodeIn, bodyErrorCode, actualWebhookErrorCodes,
    claimedWebhookErrorCodes]

theorem snapscan_codes (hm : String → String → String) (key : String)
    (pp : String → Option SnapPayload) (ts : String → Bool)
    (rl : RateLimitOutcome) (req : SnapscanRequest) (db : Db) (now : Int) :
    ((is2xx (snapscanPOST hm key pp ts rl req db now).response.status
        && ((snapscanPOST hm key pp ts rl req db now).response.body == RespBody.received))
      || (!is2xx (snapscanPOST hm key pp ts rl req db now).response.status
        && rejectionCodeIn actualWebhookErrorCodes
            (snapscanPOST hm key pp ts rl req db now).response.body)) = true := by
  unfold snapscanPOST
  repeat' split
  all_goals simp [is2xx, rejectionCodeIn, bodyErrorCode, actualWebhookErrorCodes,
    claimedWebhookErrorCodes]

theorem payfast_codes (pf : PayfastOutcomes) (db : Db) (now : Int) :
    ((is2xx (payfastPOST pf db now).response.status
        && ((payfastPOST pf db now).response.body == RespBody.received))
      || (!is2xx (payfastPOST pf db now).response.status
        && rejectionCodeIn actualWebhookErrorCodes (payfastPOST pf db now).response.body))
      = true := by
  unfold payfastPOST
  repeat' split
  all_goals simp [is2xx, rejectionCodeIn, bodyErrorCode, actualWebhookErrorCodes,
    claimedWebhookErrorCodes]

/-- C6 counterexample: a payfast callback failing ITN validation is
rejected 400 with code `invalid_itn`, which is not in the spec's claimed
code set — so not every rejection code is drawn from that set. -/
theorem C6_response_codes_counterexample :
    (payfastPOST ⟨true, true, false, true, some "x", some "r", some 1, .completed, false⟩
        ⟨[], []⟩ 0).response = ⟨400, .err "invalid_itn"⟩
    ∧ rejectionCodeIn claimedWebhookErrorCodes (RespBody.err "invalid_itn") = false := by
  decide

/-- C6 (amended): every response of the three webhook handlers is either a
2xx acknowledgement with body `{received:true}`, or a non-2xx rejection
whose `{error:<code>}` code is drawn from the claimed set extended with
the payfast route's `invalid_itn` and `missing_pf_payment_id`. -/
theorem C6_response_codes :
    (∀ (sv : String → String → SvixHeaders → Option OzowPayload) (secret : Option String)
        (rl : RateLimitOutcome) (req : OzowRequest) (db : Db) (now : Int),
        ((is2xx (ozowPOST sv secret rl req db now).response.status
            && ((ozowPOST sv secret rl req db now).response.body == RespBody.received))
          || (!is2xx (ozowPOST sv secret rl req db now).response.status
            && rejectionCodeIn actualWebhookErrorCodes
                (ozowPOST sv secret rl req db now).response.body)) = true)
    ∧ (∀ (hm : String → String → String) (key : String) (pp : String → Option SnapPayload)
        (ts : String → Bool) (rl : RateLimitOutcome) (req : SnapscanRequest)
        (db : Db) (now : Int),
        ((is2xx (snapscanPOST hm key pp ts rl req db now).response.status
            && ((snapscanPOST hm key pp ts rl req db now).response.body == RespBody.received))
          || (!is2xx (snapscanPOST hm key pp ts rl req db now).response.status
            && rejectionCodeIn actualWebhookErrorCodes
                (snapscanPOST hm key pp ts rl req db now).response.body)) = true)
    ∧ (∀ (pf : PayfastOutcomes) (db : Db) (now : Int),
        ((is2xx (payfastPOST pf db now).response.status
            && ((payfastPOST pf db now).response.body == RespBody.received))
          || (!is2xx (payfastPOST pf db now).response.status
            && rejectionCodeIn actualWebhookErrorCodes (payfastPOST pf db now).response.body))
          = true) :=
  ⟨ozow_codes, snapscan_codes, payfast_codes⟩

/-- C4 counterexample: for the same decision inputs — provider status
`failed`, expected total 20600, received total 19000 — the reconciliation
path persists `failed` (`decideReconciliation` answers update-failed and
`handleDecision` writes it), while the snapscan webhook handler rejects
the callback with `amount_mismatch` and writes nothing, because its
amount gate precedes status persistence.  The two paths therefore diverge
and a webhook `failed` is not persisted regardless of amount. -/
theorem C4_decision_policy_counterexample :
    decideReconciliation .failed (getExpectedTotal 20000 600) (some 19000) = .update .failed
    ∧ handleDecision ⟨[⟨1, 2, 20000, 600, 19400, .snapscan, "r", .pending, 0, 0⟩], []⟩ 5
        ⟨0, 0, 0, []⟩ ⟨1, 2, 20000, 600, 19400, .snapscan, "r", .pending, 0, 0⟩ .failed
        (some 19000)
      = (updateContributionStatus
          ⟨[⟨1, 2, 20000, 600, 19400, .snapscan, "r", .pending, 0, 0⟩], []⟩ 5 1 .failed,
         ⟨0, 1, 0, []⟩)
    ∧ snapscanPOST (fun _ _ => "x") "k"
        (fun _ => some ⟨some "r", some 19000, some "failed", none⟩) (fun _ => true)
        ⟨true, none⟩ ⟨"b", some "snapscan signature=x"⟩
        ⟨[⟨1, 2, 20000, 600, 19400, .snapscan, "r", .pending, 0, 0⟩], []⟩ 5
      = ⟨⟨400, .err "amount_mismatch"⟩,
         ⟨[⟨1, 2, 20000, 600, 19400, .snapscan, "r", .pending, 0, 0⟩], []⟩, []⟩ := by
  decide

/-- C4 (amended): on the reconciliation path a `failed` provider status
updates the contribution to `failed` regardless of the received amount;
on the webhook path the amount gate precedes status persistence, so a
null or mismatched amount is rejected with no write whatever the status
(including `failed`), and a `failed` status is persisted only when the
parsed amount equals the expected total exactly. -/
theorem C4_decision_policy :
    (∀ (expectedTotal : Int) (receivedTotal : Option Int),
        decideReconciliation .failed expectedTotal receivedTotal = .update .failed)
    ∧ (∀ (db : Db) (now : Int) (counters : PassCounters) (c : Contribution)
        (total : Option Int),
        handleDecision db now counters c .failed total
          = (updateContributionStatus db now c.id .failed,
             { counters with failed := counters.failed + 1 }))
    ∧ (∀ (hm : String → String → String) (key : String) (pp : String → Option SnapPayload)
        (ts : String → Bool) (rl : RateLimitOutcome) (req : SnapscanRequest)
        (db : Db) (now : Int) (p : SnapPayload) (r : String) (c : Contribution),
        pp req.rawBody = some p →
        extractSnapScanReference p = some r →
        getContributionByPaymentRef db .snapscan r = some c →
        c.paymentStatus ≠ .completed →
        (parseSnapScanAmountCents p = none
          ∨ parseSnapScanAmountCents p ≠ some (c.amountCents + c.feeCents)) →
        is2xx (snapscanPOST hm key pp ts rl req db now).response.status = false
          ∧ (snapscanPOST hm key pp ts rl req db now).db = db
          ∧ (snapscanPOST hm key pp ts rl req db now).writes = [])
    ∧ (∀ (hm : String → String → String) (key : String) (pp : String → Option SnapPayload)
        (ts : String → Bool) (rl : RateLimitOutcome) (req : SnapscanRequest)
        (db : Db) (now : Int) (id : Nat),
        DbWrite.updateStatus id .failed ∈ (snapscanPOST hm key pp ts rl req db now).writes →
        ∃ p r c, pp req.rawBody = some p
          ∧ extractSnapScanReference p = some r
          ∧ getContributionByPaymentRef db .snapscan r = some c
          ∧ id = c.id
          ∧ parseSnapScanAmountCents p = some (c.amountCents + c.feeCents)) := by
  refine ⟨fun _ _ => rfl, fun _ _ _ _ _ => rfl, ?_, ?_⟩
  · intro hm key pp ts rl req db now p r c hp hr hc hst hbad
    exact snapscanPOST_bad_amount_rejects hm key pp ts rl req db now p r c hp hr hc hst hbad
  · intro hm key pp ts rl req db now id hmem
    rcases snapscanPOST_write_implies_amount hm key pp ts rl req db now id _ hmem with
      ⟨p, r, c, h1, h2, h3, h4, _, h6⟩
    exact ⟨p, r, c, h1, h2, h3, h4, h6⟩

/-- C4 witness: the webhook side of the amended claim at the concrete
diverging input — the snapscan handler, seeing `failed` with amount 19000
against an expected 20600, rejects non-2xx with the store unchanged and
no writes. -/
theorem C4_decision_policy_witness :
    is2xx (snapscanPOST (fun _ _ => "x") "k"
        (fun _ => some ⟨some "r", some 19000, some "failed", none⟩) (fun _ => true)
        ⟨true, none⟩ ⟨"b", some "snapscan signature=x"⟩
        ⟨[⟨1, 2, 20000, 600, 19400, .snapscan, "r", .pending, 0, 0⟩], []⟩ 5).response.status
      = false
    ∧ (snapscanPOST (fun _ _ => "x") "k"
        (fun _ => some ⟨some "r", some 19000, some "failed", none⟩) (fun _ => true)
        ⟨true, none⟩ ⟨"b", some "snapscan signature=x"⟩
        ⟨[⟨1, 2, 20000, 600, 19400, .snapscan, "r", .pending, 0, 0⟩], []⟩ 5).db
      = ⟨[⟨1, 2, 20000, 600, 19400, .snapscan, "r", .pending, 0, 0⟩], []⟩
    ∧ (snapscanPOST (fun _ _ => "x") "k"
        (fun _ => some ⟨some "r", some 19000, some "failed", none⟩) (fun _ => true)
        ⟨true, none⟩ ⟨"b", some "snapscan signature=x"⟩
        ⟨[⟨1, 2, 20000, 600, 19400, .snapscan, "r", .pending, 0, 0⟩], []⟩ 5).writes
      = [] :=
  C4_decision_policy.2.2.1 (fun _ _ => "x") "k"
    (fun _ => some ⟨some "r", some 19000, some "failed", none⟩) (fun _ => true)
    ⟨true, none⟩ ⟨"b", some "snapscan signature=x"⟩
    ⟨[⟨1, 2, 20000, 600, 19400, .snapscan, "r", .pending, 0, 0⟩], []⟩ 5
    ⟨some "r", some 19000, some "failed", none⟩ "r"
    ⟨1, 2, 20000, 600, 19400, .snapscan, "r", .pending, 0, 0⟩
    rfl (by decide) (by decide) (by decide) (Or.inr (by decide))

/-- C3: `markDreamBoardFundedIfNeeded` flips a board from `active` to
`funded` exactly when the completed net sum has reached the goal (first
conjunct: the flip happens under those conditions; next three: it is a
no-op when the board is missing, not `active`, or below goal); and no
operation of the subsystem — the funding check itself, a contribution
status update, any of the three webhook handlers, or the reconciliation
decision application — ever moves a `funded` board away from `funded`. -/
theorem C3_monotonic_funding :
    (∀ (db : Db) (now : Int) (bid : Nat) (board : DreamBoard),
        getBoard db bid = some board → board.status = .active →
        board.goalCents ≤ raisedCents db bid →
        markDreamBoardFundedIfNeeded db now bid =
          { db with
            boards := db.boards.map
              (fun b => if b.id == bid then { b with status := .funded, updatedAt := now } else b) })
    ∧ (∀ (db : Db) (now : Int) (bid : Nat),
        getBoard db bid = none → markDreamBoardFundedIfNeeded db now bid = db)
    ∧ (∀ (db : Db) (now : Int) (bid : Nat) (board : DreamBoard),
        getBoard db bid = some board → board.status ≠ .active →
        markDreamBoardFundedIfNeeded db now bid = db)
    ∧ (∀ (db : Db) (now : Int) (bid : Nat) (board : DreamBoard),
        getBoard db bid = some board → raisedCents db bid < board.goalCents →
        markDreamBoardFundedIfNeeded db now bid = db)
    ∧ (∀ (db : Db) (now : Int) (bid : Nat) (i : Nat),
        boardStatusAt db i = some .funded →
        boardStatusAt (markDreamBoardFundedIfNeeded db now bid) i = some .funded)
    ∧ (∀ (db : Db) (now : Int) (id : Nat) (s : PaymentStatus),
        (updateContributionStatus db now id s).boards = db.boards)
    ∧ (∀ (sv : String → String → SvixHeaders → Option OzowPayload) (secret : Option String)
        (rl : RateLimitOutcome) (req : OzowRequest) (db : Db) (now : Int) (i : Nat),
        boardStatusAt db i = some .funded →
        boardStatusAt (ozowPOST sv secret rl req db now).db i = some .funded)
    ∧ (∀ (hm : String → String → String) (key : String) (pp : String → Option SnapPayload)
        (ts : String → Bool) (rl : RateLimitOutcome) (req : SnapscanRequest)
        (db : Db) (now : Int) (i : Nat),
        boardStatusAt db i = some .funded →
        boardStatusAt (snapscanPOST hm key pp ts rl req db now).db i = some .funded)
    ∧ (∀ (pf : PayfastOutcomes) (db : Db) (now : Int) (i : Nat),
        boardStatusAt db i = some .funded →
        boardStatusAt (payfastPOST pf db now).db i = some .funded)
    ∧ (∀ (db : Db) (now : Int) (counters : PassCounters) (c : Contribution)
        (status : PaymentStatus) (total : Option Int) (i : Nat),
        boardStatusAt db i = some .funded →
        boardStatusAt (handleDecision db now counters c status total).1 i = some .funded) :=
  ⟨mark_flips_when_due, mark_noop_no_board, mark_noop_not_active, mark_noop_below_goal,
   mark_preserves_funded, updateContributionStatus_boards, ozowPOST_preserves_funded,
   snapscanPOST_preserves_funded, payfastPOST_preserves_funded, handleDecision_preserves_funded⟩

/-- C3 witness: a concrete one-board store at its goal flips to `funded`,
and a store already `funded` stays `funded` through the funding check. -/
theorem C3_monotonic_funding_witness :
    (getBoard ⟨[⟨7, 5, 20000, 600, 19400, .payfast, "r", .completed, 0, 0⟩],
        [⟨5, 19000, .active, 0⟩]⟩ 5 = some ⟨5, 19000, .active, 0⟩
      ∧ (⟨5, 19000, .active, 0⟩ : DreamBoard).status = .active
      ∧ (⟨5, 19000, .active, 0⟩ : DreamBoard).goalCents
          ≤ raisedCents ⟨[⟨7, 5, 20000, 600, 19400, .payfast, "r", .completed, 0, 0⟩],
              [⟨5, 19000, .active, 0⟩]⟩ 5
      ∧ markDreamBoardFundedIfNeeded
          ⟨[⟨7, 5, 20000, 600, 19400, .payfast, "r", .completed, 0, 0⟩],
            [⟨5, 19000, .active, 0⟩]⟩ 9 5
        = ⟨[⟨7, 5, 20000, 600, 19400, .payfast, "r", .completed, 0, 0⟩],
            [⟨5, 19000, .funded, 9⟩]⟩)
    ∧ (boardStatusAt ⟨[], [⟨5, 20000, .funded, 0⟩]⟩ 0 = some .funded
      ∧ boardStatusAt (markDreamBoardFundedIfNeeded ⟨[], [⟨5, 20000, .funded, 0⟩]⟩ 9 5) 0
          = some .funded) := by
  refine ⟨⟨by decide, by decide, by decide, ?_⟩, ⟨by decide, ?_⟩⟩
  · have := C3_monotonic_funding.1
      ⟨[⟨7, 5, 20000, 600, 19400, .payfast, "r", .completed, 0, 0⟩], [⟨5, 19000, .active, 0⟩]⟩
      9 5 ⟨5, 19000, .active, 0⟩ (by decide) (by decide) (by decide)
    rw [this]
    decide
  · exact C3_monotonic_funding.2.2.2.2.1 ⟨[], [⟨5, 20000, .funded, 0⟩]⟩ 9 5 0 (by decide)
